import Mathlib

/-!
Verification of the whatsaut multi-checkpoint conversation system.

The repository contains three near-identical program variants:
  * `src/index.js` (and its twin `src/unnamed/part_000`), modelled below in
    namespace `V1`: deadline-based checkpoint expiry performed by a periodic
    sweeper (`cleanupExpiredCheckpoints`), score-based instance selection
    (`getBestInstance`).
  * `src/unnamed/part_001`, modelled in namespace `V2`: per-checkpoint
    `setTimeout` timers stored in a `checkpointTimeouts` map, round-robin
    instance selection (`getNextInstance`), automatic lead creation from the
    Evolution webhook.

Wall-clock times are modelled as natural numbers of milliseconds and threaded
explicitly (each operation takes the current time as an argument, standing for
`Date.now()` / `new Date()`).  JavaScript numbers holding response rates and
scores are modelled as rationals; counters as naturals or integers exactly as
the source arithmetic demands (the `V1` variant decrements
`active_conversations` without a floor, the `V2` variant floors at zero).
Structured logging (`addLog` / `systemLogs`) and the randomly generated `id`
and formatted `brazil_time` fields of history entries are omitted: the
specification excludes logging, and those fields are write-only presentation
data.  Outbound `notifyN8N` calls are modelled as records appended to an
observation list.
-/

namespace Whatsaut

/-- Milliseconds since the epoch, the unit of `Date.now()`. -/
abbrev Millis := Nat

/-! ## Association lists

JavaScript `Map` objects (`conversationState`, `instanceStats`,
`checkpointTimeouts`) are modelled as association lists with unique keys.
`lookupA` is `Map.get`, `setA` is `Map.set` (replace when the key is present,
insert otherwise). -/

/-- Lookup of a key in an association list (`Map.get`). -/
def lookupA {α : Type} (k : String) : List (String × α) → Option α
  | [] => none
  | (k', v) :: rest => if k' = k then some v else lookupA k rest

/-- Update of an association list (`Map.set`): replaces the value when the
key is present and otherwise inserts a new entry. -/
def setA {α : Type} (k : String) (v : α) (l : List (String × α)) :
    List (String × α) :=
  if l.any (fun p => p.1 = k) then
    l.map (fun p => if p.1 = k then (k, v) else p)
  else
    (k, v) :: l

/-! ## V1: the `src/index.js` variant -/

namespace V1

/-- Checkpoint response deadline, `CHECKPOINT_TIMEOUT` = 24 h (src/index.js line 8). -/
def CHECKPOINT_TIMEOUT : Millis := 24 * 60 * 60 * 1000

/-- Total data retention, `DATA_RETENTION_TIME` = 48 h (src/index.js line 9). -/
def DATA_RETENTION_TIME : Millis := 48 * 60 * 60 * 1000

/-- Names of the configured instances, `INSTANCES` (src/index.js lines 21-32).
The opaque API keys are irrelevant to the core logic and omitted. -/
def INSTANCE_NAMES : List String :=
  ["G01", "G02", "G03", "G04", "G05", "G06", "G07T", "G09", "G10", "G11"]

/-- Per-instance statistics, the values of the `instanceStats` map
(src/index.js lines 64-76).  `active_conversations` is an integer because
`updateInstanceStats` decrements it without a floor in this variant. -/
structure Stats where
  total_leads : Nat
  active_conversations : Int
  completed_conversations : Nat
  response_rate : ℚ
  last_activity : Millis
  health_score : ℚ
  blocked : Bool
deriving DecidableEq

/-- Initial statistics installed by `initializeInstanceStats`
(src/index.js lines 63-76). -/
def initialStats (now : Millis) : Stats :=
  { total_leads := 0, active_conversations := 0, completed_conversations := 0,
    response_rate := 100, last_activity := now, health_score := 100,
    blocked := false }

/-- The event kinds accepted by `updateInstanceStats` (src/index.js lines 79-108). -/
inductive StatEvent where
  | new_lead
  | response_received
  | no_response
  | conversation_complete
  | blocked
deriving DecidableEq

/-- The per-event delta applied by `updateInstanceStats` (src/index.js
lines 83-105).  Only `new_lead` refreshes `last_activity` in this variant. -/
def applyStatEvent (now : Millis) (ev : StatEvent) (s : Stats) : Stats :=
  match ev with
  | .new_lead =>
      { s with total_leads := s.total_leads + 1,
               active_conversations := s.active_conversations + 1,
               last_activity := now }
  | .response_received =>
      { s with response_rate := min 100 (s.response_rate + 1/2),
               health_score := min 100 (s.health_score + 1) }
  | .no_response =>
      { s with response_rate := max 0 (s.response_rate - 2),
               health_score := max 0 (s.health_score - 5) }
  | .conversation_complete =>
      { s with active_conversations := s.active_conversations - 1,
               completed_conversations := s.completed_conversations + 1 }
  | .blocked =>
      { s with blocked := true, health_score := 0 }

/-- `updateInstanceStats(instanceName, action)` (src/index.js lines 79-108):
a missing instance name is a silent no-op. -/
def updateInstanceStats (now : Millis) (name : String) (ev : StatEvent)
    (pool : List (String × Stats)) : List (String × Stats) :=
  pool.map (fun p => if p.1 = name then (p.1, applyStatEvent now ev p.2) else p)

/-- The selection score computed by `getBestInstance` for one instance
(src/index.js lines 118-123). -/
def score (now : Millis) (s : Stats) : ℚ :=
  let loadFactor : ℚ := max 0 (100 - (s.active_conversations : ℚ) * 2)
  let responseFactor : ℚ := s.response_rate
  let healthFactor : ℚ := s.health_score
  let timeFactor : ℚ := if now - s.last_activity < 300000 then 10 else 0
  loadFactor * (4/10) + responseFactor * (3/10) + healthFactor * (2/10) +
    timeFactor * (1/10)

/-- The accumulating loop of `getBestInstance` over the `instanceStats`
entries (src/index.js lines 115-129): skips blocked instances, keeps the
first entry whose score strictly exceeds the best score so far. -/
def bestLoop (now : Millis) :
    List (String × Stats) → Option String × ℚ → Option String × ℚ
  | [], acc => acc
  | (n, s) :: rest, (best, bestScore) =>
      if s.blocked then bestLoop now rest (best, bestScore)
      else if bestScore < score now s then bestLoop now rest (some n, score now s)
      else bestLoop now rest (best, bestScore)

/-- `getBestInstance()` (src/index.js lines 111-137).  Returns the selected
instance name together with the updated round-robin fallback counter
(`instanceCounter`, incremented only on the all-blocked fallback path). -/
def getBestInstance (pool : List (String × Stats)) (instances : List String)
    (counter : Nat) (now : Millis) : String × Nat :=
  match bestLoop now pool (none, -1) with
  | (some n, _) => (n, counter)
  | (none, _) => (instances.getD (counter % instances.length) "", counter + 1)

/-- One record of a conversation's local `checkpoint_history`
(src/index.js lines 201-205). -/
structure LocalHist where
  checkpoint_id : Option String
  passed_at : Millis
  response_message : String
deriving DecidableEq

/-- One record of a conversation's `responses` array (src/index.js
lines 193-198).  `response_time` is a JavaScript date difference, hence an
integer. -/
structure RespRec where
  checkpoint_id : Option String
  message : String
  timestamp : Millis
  response_time : Int
deriving DecidableEq

/-- One record of the global `checkpointHistory` log (src/index.js
lines 218-228).  The random `id` and formatted `brazil_time` are omitted. -/
structure GlobalHist where
  client_phone : String
  client_name : String
  checkpoint_id : Option String
  response_message : String
  instanceName : String
  timestamp : Millis
  response_time_ms : Int
deriving DecidableEq

/-- Conversation state, `createConversationState` (src/index.js
lines 140-155).  The dashboard-only `last_system_message` / `step_data`
fields are omitted.  `instanceName` is the source's `instance` field
(a Lean keyword). -/
structure Conv where
  client_phone : String
  client_name : String
  instanceName : String
  current_checkpoint : Option String
  checkpoint_history : List LocalHist
  responses : List RespRec
  created_at : Millis
  last_activity : Millis
  expires_at : Millis
  status : String
  total_checkpoints_passed : Nat
  waiting_for_response : Bool
deriving DecidableEq

/-- `createConversationState(clientPhone, clientName, instanceName)`
(src/index.js lines 140-155). -/
def createConversationState (now : Millis) (phone name inst : String) : Conv :=
  { client_phone := phone, client_name := name, instanceName := inst,
    current_checkpoint := none, checkpoint_history := [], responses := [],
    created_at := now, last_activity := now,
    expires_at := now + CHECKPOINT_TIMEOUT, status := "active",
    total_checkpoints_passed := 0, waiting_for_response := false }

/-- Result of `activateCheckpoint` (src/index.js lines 157-178). -/
inductive ActivateResult where
  | notFound
  | ok (checkpoint : String) (client : String)
deriving DecidableEq

/-- `activateCheckpoint(clientPhone, checkpointId)` (src/index.js
lines 157-178). -/
def activateCheckpoint (now : Millis) (phone cp : String)
    (store : List (String × Conv)) :
    ActivateResult × List (String × Conv) :=
  match lookupA phone store with
  | none => (.notFound, store)
  | some c =>
      let c' := { c with current_checkpoint := some cp,
                         waiting_for_response := true,
                         last_activity := now,
                         expires_at := now + CHECKPOINT_TIMEOUT }
      (.ok cp phone, setA phone c' store)

/-- Result of `processClientResponse` (src/index.js lines 181-239). -/
inductive ResolveResult where
  | notFound
  | notWaiting
  | ok (checkpoint_passed : Option String) (response : String) (total_passed : Nat)
deriving DecidableEq

/-- JavaScript falsiness of the `current_checkpoint` field: `null` and the
empty string are falsy (`!state.current_checkpoint`, src/index.js line 188). -/
def isFalsyCp : Option String → Bool
  | none => true
  | some s => s = ""

/-- `processClientResponse(clientPhone, responseMessage)` (src/index.js
lines 181-239).  Mutation order follows the source: the `responses` record
is built from the pre-update `last_activity`, then local history, counters,
flags and the global history entry. -/
def processClientResponse (now : Millis) (phone msg : String)
    (store : List (String × Conv)) (pool : List (String × Stats))
    (hist : List GlobalHist) :
    ResolveResult × List (String × Conv) × List (String × Stats) ×
      List GlobalHist :=
  match lookupA phone store with
  | none => (.notFound, store, pool, hist)
  | some c =>
      if !c.waiting_for_response || isFalsyCp c.current_checkpoint then
        (.notWaiting, store, pool, hist)
      else
        let resp : RespRec :=
          { checkpoint_id := c.current_checkpoint, message := msg,
            timestamp := now,
            response_time := (now : Int) - (c.last_activity : Int) }
        let passed := c.current_checkpoint
        let c' := { c with
          responses := c.responses ++ [resp],
          checkpoint_history := c.checkpoint_history ++
            [{ checkpoint_id := c.current_checkpoint, passed_at := now,
               response_message := msg }],
          total_checkpoints_passed := c.total_checkpoints_passed + 1,
          waiting_for_response := false,
          last_activity := now,
          current_checkpoint := none }
        let pool' := updateInstanceStats now c.instanceName .response_received pool
        let store' := setA phone c' store
        let entry : GlobalHist :=
          { client_phone := phone, client_name := c.client_name,
            checkpoint_id := passed, response_message := msg,
            instanceName := c.instanceName, timestamp := now,
            response_time_ms := resp.response_time }
        (.ok passed msg c'.total_checkpoints_passed, store', pool',
          entry :: hist)

/-- The per-conversation expiry transition of `cleanupExpiredCheckpoints`
(src/index.js lines 423-434): when the deadline has elapsed and the
conversation is still waiting, mark it expired and apply the
`no_response` and `conversation_complete` stat events. -/
def expireConv (now : Millis) (c : Conv) (pool : List (String × Stats)) :
    Conv × List (String × Stats) :=
  if c.expires_at < now ∧ c.waiting_for_response then
    ({ c with status := "expired", waiting_for_response := false,
              current_checkpoint := none },
     updateInstanceStats now c.instanceName .conversation_complete
       (updateInstanceStats now c.instanceName .no_response pool))
  else (c, pool)

end V1

/-! ## V2: the `src/unnamed/part_001` variant -/

namespace V2

/-- Total data retention, `DATA_RETENTION_TIME` = 72 h (part_001 line 14). -/
def DATA_RETENTION_TIME : Millis := 72 * 60 * 60 * 1000

/-- `INSTANCE_ROTATION_RESET` (part_001 line 16). -/
def INSTANCE_ROTATION_RESET : Nat := 1000

/-- A configured instance (part_001 lines 21-23): name, API key, active flag. -/
structure InstanceCfg where
  name : String
  id : String
  active : Bool
deriving DecidableEq

/-- The configured instance list `INSTANCES` (part_001 lines 21-23). -/
def INSTANCES : List InstanceCfg :=
  [{ name := "G08", id := "A63C380B277D-4A5E-9ECD-48710291E5A6", active := true }]

/-- Per-instance statistics (part_001 lines 90-102).  `active_conversations`
is a natural number: this variant floors the decrement at zero. -/
structure Stats where
  total_leads : Nat
  active_conversations : Nat
  checkpoints_passed : Nat
  timeouts : Nat
  last_activity : Millis
  health_score : ℚ
  response_rate : ℚ
  blocked : Bool
deriving DecidableEq

/-- Initial statistics installed at startup (part_001 lines 90-102). -/
def initialStats (now : Millis) : Stats :=
  { total_leads := 0, active_conversations := 0, checkpoints_passed := 0,
    timeouts := 0, last_activity := now, health_score := 100,
    response_rate := 100, blocked := false }

/-- Event kinds of `updateInstanceStats` (part_001 lines 139-166). -/
inductive StatEvent where
  | checkpoint_passed
  | timeout
  | conversation_ended
  | blocked
deriving DecidableEq

/-- The per-event delta of `updateInstanceStats` (part_001 lines 143-164).
Unlike V1, every event refreshes `last_activity` (line 164), the timeout
health penalty is 3, and the active-conversation decrement is floored. -/
def applyStatEvent (now : Millis) (ev : StatEvent) (s : Stats) : Stats :=
  let s' :=
    match ev with
    | .checkpoint_passed =>
        { s with checkpoints_passed := s.checkpoints_passed + 1,
                 response_rate := min 100 (s.response_rate + 1/2),
                 health_score := min 100 (s.health_score + 1) }
    | .timeout =>
        { s with timeouts := s.timeouts + 1,
                 response_rate := max 0 (s.response_rate - 2),
                 health_score := max 0 (s.health_score - 3) }
    | .conversation_ended =>
        { s with active_conversations := s.active_conversations - 1 }
    | .blocked =>
        { s with blocked := true, health_score := 0 }
  { s' with last_activity := now }

/-- `updateInstanceStats(instanceName, event)` (part_001 lines 139-166):
a missing instance name is a silent no-op. -/
def updateInstanceStats (now : Millis) (name : String) (ev : StatEvent)
    (pool : List (String × Stats)) : List (String × Stats) :=
  pool.map (fun p => if p.1 = name then (p.1, applyStatEvent now ev p.2) else p)

/-- Whether the stats map marks an instance as blocked
(`!stats || !stats.blocked` in part_001 line 110: a missing entry counts as
not blocked). -/
def blockedOf (pool : List (String × Stats)) (n : String) : Bool :=
  match lookupA n pool with
  | some s => s.blocked
  | none => false

/-- `getNextInstance()` (part_001 lines 106-137): round-robin over the
active, non-blocked instances; the all-unavailable fallback returns the
first configured instance without touching the counter or the stats.
Returns the chosen instance, the updated stats pool (inline new-lead
bump, lines 128-134) and the updated rotation counter. -/
def getNextInstance (cfg : List InstanceCfg) (pool : List (String × Stats))
    (counter : Nat) (now : Millis) :
    InstanceCfg × List (String × Stats) × Nat :=
  let available := cfg.filter (fun i => i.active && !(blockedOf pool i.name))
  if available.isEmpty then
    (cfg.headD { name := "", id := "", active := false }, pool, counter)
  else
    let inst := available.getD (counter % available.length)
      { name := "", id := "", active := false }
    let c₁ := counter + 1
    let c₂ := if c₁ > INSTANCE_ROTATION_RESET then 0 else c₁
    let pool' := pool.map (fun p =>
      if p.1 = inst.name then
        (p.1, { p.2 with total_leads := p.2.total_leads + 1,
                         active_conversations := p.2.active_conversations + 1,
                         last_activity := now })
      else p)
    (inst, pool', c₂)

/-- A record of a conversation's `checkpoints` array (part_001
lines 290-295). -/
structure CheckpointRec where
  name : Option String
  response : String
  passed_at : Millis
  response_time : Int
deriving DecidableEq

/-- Conversation state (part_001 lines 174-186).  `instanceName` is the
source's `instance` field.  `checkpoint_activated_at` is undefined in the
source until the first activation; it is initialised to 0 here and is never
read before an activation sets it. -/
structure Conv where
  phone : String
  name : String
  instanceName : String
  instance_id : String
  source : String
  current_checkpoint : Option String
  checkpoints : List CheckpointRec
  waiting_response : Bool
  created_at : Millis
  last_activity : Millis
  status : String
  checkpoint_activated_at : Millis
deriving DecidableEq

/-- A record of the global `checkpointHistory` log (part_001 lines 307-316).
The random `id` and formatted `brazil_time` are omitted. -/
structure HistEntry where
  phone : String
  name : String
  checkpoint : Option String
  response : String
  instanceName : String
  timestamp : Millis
deriving DecidableEq

/-- The `dailyStats` aggregate (part_001 lines 33-39). -/
structure DailyStats where
  leads_today : Nat
  checkpoints_passed : Nat
  timeouts : Nat
  active_now : Nat
  last_reset : Millis
deriving DecidableEq

/-- An outbound `notifyN8N` call, recorded as an observation (the call
itself is an external collaborator). -/
structure Note where
  event : String
  phone : String
  checkpoint : Option String
  instanceName : String
deriving DecidableEq

/-- The mutable state of the part_001 process: configured instances,
`conversationState`, the keys of `checkpointTimeouts`, `instanceStats`,
`checkpointHistory`, `instanceRotationCounter`, `totalLeadsProcessed`,
`dailyStats`, and the emitted notifications. -/
structure Sys where
  cfg : List InstanceCfg
  store : List (String × Conv)
  timers : List String
  pool : List (String × Stats)
  history : List HistEntry
  counter : Nat
  totalLeads : Nat
  daily : DailyStats
  notes : List Note
deriving DecidableEq

/-- JavaScript `String.prototype.trim`: strip leading and trailing
whitespace.  Defined over the character list so that it evaluates inside the
kernel. -/
def trimStr (s : String) : String :=
  (((s.toList.dropWhile Char.isWhitespace).reverse.dropWhile
      Char.isWhitespace).reverse).asString

/-- The key of the `checkpointTimeouts` map for a phone and checkpoint:
the template literal `phone_checkpoint`, where a `null` checkpoint prints
as the string `null` (part_001 lines 208, 226). -/
def timeoutKey (phone : String) (cp : Option String) : String :=
  phone ++ "_" ++ (match cp with | some c => c | none => "null")

/-- `Map.set` on the timer key set: a present key is left in place
(its timer handle is overwritten), an absent key is appended. -/
def armKey (k : String) (l : List String) : List String :=
  if k ∈ l then l else l ++ [k]

/-- `Map.delete` on the timer key set. -/
def removeKey (k : String) (l : List String) : List String :=
  l.filter (fun x => x ≠ k)

/-- The initial system state: `initializeInstanceStats` (part_001
lines 90-104) over a configured instance list, everything else empty. -/
def initSys (cfg : List InstanceCfg) (now0 : Millis) : Sys :=
  { cfg := cfg, store := [], timers := [],
    pool := cfg.map (fun i => (i.name, initialStats now0)),
    history := [], counter := 0, totalLeads := 0,
    daily := { leads_today := 0, checkpoints_passed := 0, timeouts := 0,
               active_now := 0, last_reset := now0 },
    notes := [] }

/-- `createConversation(phone, name, source)` (part_001 lines 171-197). -/
def createConversation (s : Sys) (now : Millis) (phone name source : String) :
    Conv × Sys :=
  let gni := getNextInstance s.cfg s.pool s.counter now
  let inst := gni.1
  let pool' := gni.2.1
  let counter' := gni.2.2
  let conv : Conv :=
    { phone := phone, name := name, instanceName := inst.name,
      instance_id := inst.id, source := source, current_checkpoint := none,
      checkpoints := [], waiting_response := false, created_at := now,
      last_activity := now, status := "active", checkpoint_activated_at := 0 }
  let store' := setA phone conv s.store
  let daily' := { s.daily with
    leads_today := s.daily.leads_today + 1, active_now := store'.length }
  (conv,
   { s with store := store', pool := pool', counter := counter',
            totalLeads := s.totalLeads + 1, daily := daily' })

/-- `activateCheckpoint(phone, checkpointName)` (part_001 lines 199-241):
cancels the timer keyed by the previous checkpoint, installs the new
checkpoint, and arms a timer keyed by the new checkpoint.  Returns whether
the activation succeeded. -/
def activateCheckpoint (s : Sys) (now : Millis) (phone cpName : String) :
    Bool × Sys :=
  match lookupA phone s.store with
  | none => (false, s)
  | some c =>
      let timers₁ := removeKey (timeoutKey phone c.current_checkpoint) s.timers
      let c' := { c with current_checkpoint := some cpName,
                         waiting_response := true,
                         checkpoint_activated_at := now,
                         last_activity := now }
      let timers' := armKey (timeoutKey phone (some cpName)) timers₁
      (true, { s with store := setA phone c' s.store, timers := timers' })

/-- `handleCheckpointTimeout(phone, checkpointName)` (part_001
lines 243-266).  The staleness guard only compares the current checkpoint
with the fired checkpoint name; it does not test `waiting_response`, and the
fired key is not removed from `checkpointTimeouts`. -/
def handleCheckpointTimeout (s : Sys) (now : Millis) (phone cpName : String) :
    Sys :=
  match lookupA phone s.store with
  | none => s
  | some c =>
      if c.current_checkpoint ≠ some cpName then s
      else
        let c' := { c with waiting_response := false, status := "timeout" }
        { s with store := setA phone c' s.store,
                 pool := updateInstanceStats now c.instanceName .timeout s.pool,
                 daily := { s.daily with timeouts := s.daily.timeouts + 1 },
                 notes := s.notes ++
                   [{ event := "checkpoint_timeout", phone := phone,
                      checkpoint := some cpName,
                      instanceName := c.instanceName }] }

/-- Result of `processCheckpointResponse` (part_001 lines 268-331). -/
inductive ResolveResult where
  | notFound
  | notWaiting
  | ok (checkpoint : Option String) (response : String) (instanceName : String)
deriving DecidableEq

/-- The 500-entry cap on the global history (part_001 lines 319-321). -/
def capHist (l : List HistEntry) : List HistEntry :=
  if l.length > 500 then l.take 500 else l

/-- `processCheckpointResponse(phone, message)` (part_001 lines 268-331).
Note: unlike V1, the guard only tests `waiting_response`, and
`current_checkpoint` is left in place after a successful resolve. -/
def processCheckpointResponse (s : Sys) (now : Millis) (phone msg : String) :
    ResolveResult × Sys :=
  match lookupA phone s.store with
  | none => (.notFound, s)
  | some c =>
      if !c.waiting_response then (.notWaiting, s)
      else
        let cpName := c.current_checkpoint
        let timers' := removeKey (timeoutKey phone cpName) s.timers
        let cpData : CheckpointRec :=
          { name := cpName, response := msg, passed_at := now,
            response_time := (now : Int) - (c.checkpoint_activated_at : Int) }
        let c' := { c with checkpoints := c.checkpoints ++ [cpData],
                           waiting_response := false,
                           last_activity := now }
        let pool' := updateInstanceStats now c.instanceName .checkpoint_passed
          s.pool
        let hist' := capHist
          ({ phone := phone, name := c.name, checkpoint := cpName,
             response := msg, instanceName := c.instanceName,
             timestamp := now } :: s.history)
        (.ok cpName msg c.instanceName,
         { s with store := setA phone c' s.store, timers := timers',
                  pool := pool',
                  daily := { s.daily with checkpoints_passed :=
                    s.daily.checkpoints_passed + 1 },
                  history := hist' })

/-- The conversation-deleting loop of `cleanupOldData` (part_001
lines 606-620): removes conversations whose last activity is strictly older
than the retention horizon, cancels their pending timer key and applies the
`conversation_ended` stat event. -/
def sweepConvs (now : Millis) :
    List (String × Conv) → List String → List (String × Stats) →
      List (String × Conv) × List String × List (String × Stats)
  | [], timers, pool => ([], timers, pool)
  | (ph, c) :: rest, timers, pool =>
      if DATA_RETENTION_TIME < now - c.last_activity then
        sweepConvs now rest
          (removeKey (timeoutKey ph c.current_checkpoint) timers)
          (updateInstanceStats now c.instanceName .conversation_ended pool)
      else
        let sw := sweepConvs now rest timers pool
        ((ph, c) :: sw.1, sw.2.1, sw.2.2)

/-- Day index of a timestamp.  The source compares `toDateString()` values
in local time; the date rollover is modelled as the UTC day index, which
preserves the relevant behaviour (reset exactly when the day changes). -/
def dayOf (t : Millis) : Nat := t / 86400000

/-- `cleanupOldData()` (part_001 lines 601-650): deletes retention-expired
conversations (with their timer keys and a `conversation_ended` stat event),
prunes the history log by age, resets `dailyStats` when the day has rolled
over, and refreshes `active_now`.  The pruning of `systemLogs` is omitted
(logging is an excluded collaborator). -/
def cleanupOldData (s : Sys) (now : Millis) : Sys :=
  let swept := sweepConvs now s.store s.timers s.pool
  let store' := swept.1
  let timers' := swept.2.1
  let pool' := swept.2.2
  let history' := s.history.filter
    (fun h => now - DATA_RETENTION_TIME < h.timestamp)
  let daily₁ :=
    if dayOf s.daily.last_reset ≠ dayOf now then
      { leads_today := 0, checkpoints_passed := 0, timeouts := 0,
        active_now := store'.length, last_reset := now }
    else s.daily
  let daily' := { daily₁ with active_now := store'.length }
  { s with store := store', timers := timers', pool := pool',
           history := history', daily := daily' }

/-- The Evolution webhook handler (part_001 lines 462-539), restricted to
the core state transition: drop echoes (`fromMe`) and blank messages,
auto-create a lead for an unknown phone (notifying `new_lead`), otherwise
resolve the pending checkpoint (notifying `checkpoint_passed` on success).
The phone argument is the `remoteJid` with its suffix already stripped. -/
def handleEvolutionMessage (s : Sys) (now : Millis) (phone : String)
    (fromMe : Bool) (content : String) : Sys :=
  if fromMe then s
  else if trimStr content = "" then s
  else if (lookupA phone s.store).isNone then
    let created := createConversation s now phone "Cliente" "whatsapp_direto"
    let conv := created.1
    let s₁ := created.2
    { s₁ with notes := s₁.notes ++
        [{ event := "new_lead", phone := phone, checkpoint := none,
           instanceName := conv.instanceName }] }
  else
    let resolved := processCheckpointResponse s now phone content
    match resolved.1 with
    | .ok cp _ inst =>
        { resolved.2 with notes := resolved.2.notes ++
            [{ event := "checkpoint_passed", phone := phone, checkpoint := cp,
               instanceName := inst }] }
    | _ => resolved.2

/-- The operations of the per-client state machine used by the invariant
claims: conversation creation (guarded by the existence check at its call
sites, part_001 lines 372 and 495), checkpoint activation, response
resolution, a timeout callback firing, and a sweeper pass. -/
inductive Op where
  | create (now : Millis) (name source : String)
  | activate (now : Millis) (cp : String)
  | resolve (now : Millis) (msg : String)
  | fire (now : Millis) (cp : String)
  | sweep (now : Millis)

/-- One step of the system on behalf of client `p`. -/
def step (p : String) (s : Sys) : Op → Sys
  | .create now name src =>
      if (lookupA p s.store).isSome then s
      else (createConversation s now p name src).2
  | .activate now cp => (activateCheckpoint s now p cp).2
  | .resolve now msg => (processCheckpointResponse s now p msg).2
  | .fire now cp => handleCheckpointTimeout s now p cp
  | .sweep now => cleanupOldData s now

/-- Iterated steps. -/
def run (p : String) (s : Sys) (ops : List Op) : Sys :=
  ops.foldl (step p) s

/-- Modelled from the spec: the ghost flag "no resolving response or timeout
has occurred since that checkpoint's activation" used by the
waiting-for-response invariant.  It becomes true on a successful activation
and false when a resolving response is accepted, when a timeout callback
passes its staleness guard, or when a fresh conversation is created. -/
def sinceActivation (p : String) (s : Sys) (op : Op) (g : Bool) : Bool :=
  match op with
  | .create _ _ _ => if (lookupA p s.store).isSome then g else false
  | .activate _ _ => if (lookupA p s.store).isSome then true else g
  | .resolve _ _ =>
      match lookupA p s.store with
      | some c => if c.waiting_response then false else g
      | none => g
  | .fire _ cp =>
      match lookupA p s.store with
      | some c => if c.current_checkpoint = some cp then false else g
      | none => g
  | .sweep _ => g

/-- Iterated steps carrying the ghost flag. -/
def runG (p : String) (sg : Sys × Bool) (ops : List Op) : Sys × Bool :=
  ops.foldl (fun sg op => (step p sg.1 op, sinceActivation p sg.1 op sg.2)) sg

end V2

/-! ## Statement-side abbreviations

These definitions belong to the theorem statements, not to the embedding:
they spell out the post-states the claims predict. -/

/-- The conversation state claim C1 predicts after `activateCheckpoint` at
time `t0` with checkpoint `K` followed by `processClientResponse` at time
`t1` with message `msg`, starting from `c0`. -/
def c1PostConv (t0 t1 : Millis) (K msg : String) (c0 : V1.Conv) : V1.Conv :=
  { c0 with
    current_checkpoint := none,
    waiting_for_response := false,
    last_activity := t1,
    expires_at := t0 + V1.CHECKPOINT_TIMEOUT,
    checkpoint_history := c0.checkpoint_history ++
      [{ checkpoint_id := some K, passed_at := t1, response_message := msg }],
    responses := c0.responses ++
      [{ checkpoint_id := some K, message := msg, timestamp := t1,
         response_time := (t1 : Int) - (t0 : Int) }],
    total_checkpoints_passed := c0.total_checkpoints_passed + 1 }

/-- The global-history record claim C1 predicts for the resolution. -/
def c1PostEntry (t0 t1 : Millis) (phone K msg : String) (c0 : V1.Conv) :
    V1.GlobalHist :=
  { client_phone := phone, client_name := c0.client_name,
    checkpoint_id := some K, response_message := msg,
    instanceName := c0.instanceName, timestamp := t1,
    response_time_ms := (t1 : Int) - (t0 : Int) }

/-- The timer-map invariant of claim C6 for client `p`: the conversation
store is functional at `p`, at most one timer key exists, and every timer
key is the key of the client's current checkpoint. -/
def timerInv (p : String) (s : V2.Sys) : Prop :=
  (∀ c c' : V2.Conv, (p, c) ∈ s.store → (p, c') ∈ s.store → c = c')
  ∧ s.timers.length ≤ 1
  ∧ (∀ k ∈ s.timers, ∃ c : V2.Conv, (p, c) ∈ s.store
      ∧ k = V2.timeoutKey p c.current_checkpoint)

/-! ## A concrete V2 execution used by witnesses and counterexamples -/

/-- Startup at time 400: `initializeInstanceStats` over the configured
instance list. -/
def exInit : V2.Sys := V2.initSys V2.INSTANCES 400

/-- A conversation for client 5511999999999 created at time 500. -/
def exCreated : V2.Sys :=
  (V2.createConversation exInit 500 "5511999999999" "Cliente" "ads").2

/-- Checkpoint `confirm_interest` activated at time 1000. -/
def exActivated : V2.Sys :=
  (V2.activateCheckpoint exCreated 1000 "5511999999999" "confirm_interest").2

/-- The client's response resolved at time 2000. -/
def exResolved : V2.Sys :=
  (V2.processCheckpointResponse exActivated 2000 "5511999999999" "yes").2

/-- The timeout callback for the already-resolved checkpoint invoked at
time 3000. -/
def exFired : V2.Sys :=
  V2.handleCheckpointTimeout exResolved 3000 "5511999999999" "confirm_interest"

/-- The timeout callback invoked at time 3000 while the checkpoint is still
waiting (no resolve happened). -/
def exFiredWaiting : V2.Sys :=
  V2.handleCheckpointTimeout exActivated 3000 "5511999999999"
    "confirm_interest"

/-- The conversation value stored in `exActivated`. -/
def exConvActivated : V2.Conv :=
  { phone := "5511999999999", name := "Cliente", instanceName := "G08",
    instance_id := "A63C380B277D-4A5E-9ECD-48710291E5A6", source := "ads",
    current_checkpoint := some "confirm_interest", checkpoints := [],
    waiting_response := true, created_at := 500, last_activity := 1000,
    status := "active", checkpoint_activated_at := 1000 }

/-- The G08 statistics value stored in `exActivated` (one lead routed at
time 500). -/
def exStatsCreated : V2.Stats :=
  { total_leads := 1, active_conversations := 1, checkpoints_passed := 0,
    timeouts := 0, last_activity := 500, health_score := 100,
    response_rate := 100, blocked := false }

/-- A stale conversation (no activity since time 0) used by the sweeper
witness. -/
def exConvStale : V2.Conv :=
  { exConvActivated with
    phone := "5511888888888", created_at := 0, last_activity := 0,
    checkpoint_activated_at := 0, current_checkpoint := some "K1" }

/-- A two-conversation system used by the sweeper witness: one stale
conversation with an armed timer, one recent conversation. -/
def exSweepSys : V2.Sys :=
  { cfg := V2.INSTANCES,
    store := [("5511888888888", exConvStale),
              ("5511999999999", exConvActivated)],
    timers := [V2.timeoutKey "5511888888888" (some "K1"),
               V2.timeoutKey "5511999999999" (some "confirm_interest")],
    pool := [("G08", exStatsCreated)],
    history := [], counter := 1, totalLeads := 2,
    daily := { leads_today := 2, checkpoints_passed := 0, timeouts := 0,
               active_now := 2, last_reset := 400 },
    notes := [] }


/-- A healthy two-instance V1 stats pool used by the selection witnesses. -/
def exPoolHealthy : List (String × V1.Stats) :=
  [("G01", V1.initialStats 400), ("G02", V1.initialStats 400)]

/-- A V1 stats pool whose first instance is blocked. -/
def exPoolOneBlocked : List (String × V1.Stats) :=
  [("G01", { V1.initialStats 400 with blocked := true, health_score := 0 }),
   ("G02", V1.initialStats 400)]

/-- A V1 stats pool with every instance blocked. -/
def exPoolAllBlocked : List (String × V1.Stats) :=
  [("G01", { V1.initialStats 400 with blocked := true }),
   ("G02", { V1.initialStats 400 with blocked := true })]

/-! ## Association-list lemmas -/

theorem lookupA_map_replace_self {α : Type} (k : String) (v : α)
    (l : List (String × α)) (hmem : l.any (fun p => p.1 = k)) :
    lookupA k (l.map (fun p => if p.1 = k then (k, v) else p)) = some v := by
  induction l with
  | nil => simp at hmem
  | cons p rest ih =>
      obtain ⟨k₀, v₀⟩ := p
      by_cases hp : k₀ = k
      · have hstep : List.map (fun p : String × α => if p.1 = k then (k, v) else p)
            ((k₀, v₀) :: rest)
            = (k, v) :: List.map (fun p => if p.1 = k then (k, v) else p) rest := by
          simp [hp]
        rw [hstep]
        simp [lookupA]
      · have hmem' : rest.any (fun p => p.1 = k) := by
          rcases List.any_eq_true.1 hmem with ⟨q, hq, hqk⟩
          rcases List.mem_cons.1 hq with rfl | hq'
          · exact absurd (of_decide_eq_true hqk) hp
          · exact List.any_eq_true.2 ⟨q, hq', hqk⟩
        have hstep : List.map (fun p : String × α => if p.1 = k then (k, v) else p)
            ((k₀, v₀) :: rest)
            = (k₀, v₀) :: List.map (fun p => if p.1 = k then (k, v) else p) rest := by
          simp [hp]
        rw [hstep]
        simp only [lookupA, hp, if_false]
        exact ih hmem'

theorem lookupA_map_replace_ne {α : Type} (k k' : String) (v : α)
    (l : List (String × α)) (h : k' ≠ k) :
    lookupA k' (l.map (fun p => if p.1 = k then (k, v) else p)) =
      lookupA k' l := by
  induction l with
  | nil => rfl
  | cons p rest ih =>
      obtain ⟨k₀, v₀⟩ := p
      by_cases hp : k₀ = k
      · have hk : ¬ (k = k') := fun hk => h hk.symm
        have hpk : ¬ (k₀ = k') := by rw [hp]; exact hk
        have hstep : List.map (fun p : String × α => if p.1 = k then (k, v) else p)
            ((k₀, v₀) :: rest)
            = (k, v) :: List.map (fun p => if p.1 = k then (k, v) else p) rest := by
          simp [hp]
        rw [hstep]
        simp only [lookupA, hk, hpk, if_false]
        exact ih
      · have hstep : List.map (fun p : String × α => if p.1 = k then (k, v) else p)
            ((k₀, v₀) :: rest)
            = (k₀, v₀) :: List.map (fun p => if p.1 = k then (k, v) else p) rest := by
          simp [hp]
        rw [hstep]
        by_cases hpk : k₀ = k'
        · simp [lookupA, hpk]
        · simp only [lookupA, hpk, if_false]
          exact ih

theorem lookupA_setA_self {α : Type} (k : String) (v : α)
    (l : List (String × α)) : lookupA k (setA k v l) = some v := by
  unfold setA
  by_cases hmem : l.any (fun p => p.1 = k)
  · simp only [hmem, if_true]
    exact lookupA_map_replace_self k v l hmem
  · simp [hmem, lookupA]

theorem lookupA_setA_ne {α : Type} (k k' : String) (v : α)
    (l : List (String × α)) (h : k' ≠ k) :
    lookupA k' (setA k v l) = lookupA k' l := by
  unfold setA
  by_cases hmem : l.any (fun p => p.1 = k)
  · simp only [hmem, if_true]
    exact lookupA_map_replace_ne k k' v l h
  · have hk : ¬ (k = k') := fun hk => h hk.symm
    simp [hmem, lookupA, hk]

theorem lookupA_mem {α : Type} {k : String} {v : α}
    {l : List (String × α)} (h : lookupA k l = some v) : (k, v) ∈ l := by
  induction l with
  | nil => simp [lookupA] at h
  | cons p rest ih =>
      obtain ⟨k', v'⟩ := p
      by_cases hk : k' = k
      · simp only [lookupA, hk, if_true, Option.some.injEq] at h
        subst hk; subst h
        exact List.mem_cons_self _ _
      · simp only [lookupA, hk, if_false] at h
        exact List.mem_cons_of_mem _ (ih h)

theorem mem_setA_self_eq {α : Type} {k : String} {c v : α}
    {l : List (String × α)} (h : (k, c) ∈ setA k v l) : c = v := by
  unfold setA at h
  by_cases hmem : l.any (fun p => p.1 = k)
  · rw [if_pos hmem] at h
    obtain ⟨⟨k₀, v₀⟩, hpmem, hp⟩ := List.mem_map.1 h
    by_cases hpk : k₀ = k
    · have hhead : (if (k₀, v₀).1 = k then ((k, v) : String × α) else (k₀, v₀))
          = (k, v) := by simp [hpk]
      rw [hhead] at hp
      exact (Prod.ext_iff.1 hp).2.symm
    · have hhead : (if (k₀, v₀).1 = k then ((k, v) : String × α) else (k₀, v₀))
          = (k₀, v₀) := by simp [hpk]
      rw [hhead] at hp
      exact absurd (Prod.ext_iff.1 hp).1 hpk
  · rw [if_neg hmem] at h
    rcases List.mem_cons.1 h with heq | hmem'
    · exact (Prod.ext_iff.1 heq).2
    · exfalso
      exact hmem (List.any_eq_true.2 ⟨(k, c), hmem', by simp⟩)

theorem mem_setA_ne {α : Type} {k k₁ : String} {c : α} {v : α}
    {l : List (String × α)} (h : (k₁, c) ∈ setA k v l) (hne : k₁ ≠ k) :
    (k₁, c) ∈ l := by
  unfold setA at h
  by_cases hmem : l.any (fun p => p.1 = k)
  · rw [if_pos hmem] at h
    obtain ⟨⟨k₀, v₀⟩, hpmem, hp⟩ := List.mem_map.1 h
    by_cases hpk : k₀ = k
    · have hhead : (if (k₀, v₀).1 = k then ((k, v) : String × α) else (k₀, v₀))
          = (k, v) := by simp [hpk]
      rw [hhead] at hp
      exact absurd (Prod.ext_iff.1 hp).1.symm hne
    · have hhead : (if (k₀, v₀).1 = k then ((k, v) : String × α) else (k₀, v₀))
          = (k₀, v₀) := by simp [hpk]
      rw [hhead] at hp
      rwa [hp] at hpmem
  · rw [if_neg hmem] at h
    rcases List.mem_cons.1 h with heq | hmem'
    · exact absurd (Prod.ext_iff.1 heq).1 hne
    · exact hmem'


theorem lookupA_map_adjust {α : Type} (n : String) (f : α → α)
    (l : List (String × α)) :
    lookupA n (l.map (fun p => if p.1 = n then (p.1, f p.2) else p)) =
      (lookupA n l).map f := by
  induction l with
  | nil => rfl
  | cons p rest ih =>
      obtain ⟨k, v⟩ := p
      by_cases hk : k = n
      · have hstep : List.map
            (fun p : String × α => if p.1 = n then (p.1, f p.2) else p)
            ((k, v) :: rest)
            = (k, f v) :: List.map
                (fun p : String × α => if p.1 = n then (p.1, f p.2) else p)
                rest := by
          simp [hk]
        rw [hstep]
        simp [lookupA, hk]
      · have hstep : List.map
            (fun p : String × α => if p.1 = n then (p.1, f p.2) else p)
            ((k, v) :: rest)
            = (k, v) :: List.map
                (fun p : String × α => if p.1 = n then (p.1, f p.2) else p)
                rest := by
          simp [hk]
        rw [hstep]
        by_cases hkn : k = n
        · exact absurd hkn hk
        · simp only [lookupA, hk, if_false]
          exact ih

theorem mem_removeKey_iff (k x : String) (l : List String) :
    x ∈ V2.removeKey k l ↔ x ∈ l ∧ x ≠ k := by
  simp [V2.removeKey, List.mem_filter]

theorem not_mem_removeKey_self (k : String) (l : List String) :
    k ∉ V2.removeKey k l := by
  simp [mem_removeKey_iff]


theorem lookupA_eq_none_not_mem {α : Type} {k : String}
    {l : List (String × α)} (h : lookupA k l = none) (v : α) : (k, v) ∉ l := by
  induction l with
  | nil => simp
  | cons p rest ih =>
      obtain ⟨k₀, v₀⟩ := p
      by_cases hk : k₀ = k
      · simp [lookupA, hk] at h
      · simp only [lookupA, hk, if_false] at h
        intro hmem
        rcases List.mem_cons.1 hmem with heq | hmem'
        · exact hk ((Prod.ext_iff.1 heq).1).symm
        · exact ih h hmem'

theorem lookupA_none_any_false {α : Type} {k : String}
    {l : List (String × α)} (h : lookupA k l = none) :
    l.any (fun p => p.1 = k) = false := by
  induction l with
  | nil => rfl
  | cons p rest ih =>
      obtain ⟨k₀, v₀⟩ := p
      by_cases hk : k₀ = k
      · simp [lookupA, hk] at h
      · simp only [lookupA, hk, if_false] at h
        simp [hk, ih h]

theorem mem_setA_self {α : Type} (k : String) (v : α)
    (l : List (String × α)) : (k, v) ∈ setA k v l := by
  unfold setA
  by_cases hmem : l.any (fun p => p.1 = k)
  · rw [if_pos hmem]
    obtain ⟨q, hq, hqk⟩ := List.any_eq_true.1 hmem
    obtain ⟨qk, qv⟩ := q
    have hqk' : qk = k := of_decide_eq_true hqk
    refine List.mem_map.2 ⟨(qk, qv), hq, ?_⟩
    simp [hqk']
  · rw [if_neg hmem]
    exact List.mem_cons_self _ _

theorem removeKey_eq_nil {k : String} {l : List String}
    (h : ∀ x ∈ l, x = k) : V2.removeKey k l = [] := by
  induction l with
  | nil => rfl
  | cons x rest ih =>
      have hx : x = k := h x (List.mem_cons_self _ _)
      have hrest : ∀ x ∈ rest, x = k := fun y hy =>
        h y (List.mem_cons_of_mem _ hy)
      simp [V2.removeKey, hx]
      have := ih hrest
      simpa [V2.removeKey] using this

theorem sweepConvs_timers_length_le (now : Millis) :
    ∀ (store : List (String × V2.Conv)) (timers : List String)
      (pool : List (String × V2.Stats)),
      (V2.sweepConvs now store timers pool).2.1.length ≤ timers.length := by
  intro store
  induction store with
  | nil => intro timers pool; simp [V2.sweepConvs]
  | cons p rest ih =>
      intro timers pool
      obtain ⟨ph, c⟩ := p
      by_cases hexp : V2.DATA_RETENTION_TIME < now - c.last_activity
      · simp only [V2.sweepConvs, if_pos hexp]
        exact le_trans (ih _ _) (List.length_filter_le _ _)
      · simp only [V2.sweepConvs, if_neg hexp]
        exact ih _ _

/-! ## Sweeper lemmas -/

theorem sweepConvs_timers_subset (now : Millis) :
    ∀ (store : List (String × V2.Conv)) (timers : List String)
      (pool : List (String × V2.Stats)) (k : String),
      k ∈ (V2.sweepConvs now store timers pool).2.1 → k ∈ timers := by
  intro store
  induction store with
  | nil =>
      intro timers pool k h
      simpa [V2.sweepConvs] using h
  | cons p rest ih =>
      intro timers pool k h
      obtain ⟨ph, c⟩ := p
      by_cases hexp : V2.DATA_RETENTION_TIME < now - c.last_activity
      · simp only [V2.sweepConvs, if_pos hexp] at h
        exact ((mem_removeKey_iff _ _ _).1 (ih _ _ _ h)).1
      · simp only [V2.sweepConvs, if_neg hexp] at h
        exact ih _ _ _ h

theorem sweepConvs_mem_iff (now : Millis) :
    ∀ (store : List (String × V2.Conv)) (timers : List String)
      (pool : List (String × V2.Stats)) (ph : String) (c : V2.Conv),
      (ph, c) ∈ (V2.sweepConvs now store timers pool).1 ↔
        ((ph, c) ∈ store ∧ now - c.last_activity ≤ V2.DATA_RETENTION_TIME) := by
  intro store
  induction store with
  | nil =>
      intro timers pool ph c
      simp [V2.sweepConvs]
  | cons p rest ih =>
      intro timers pool ph c
      obtain ⟨q, d⟩ := p
      by_cases hexp : V2.DATA_RETENTION_TIME < now - d.last_activity
      · simp only [V2.sweepConvs, if_pos hexp]
        rw [ih]
        constructor
        · rintro ⟨hmem, hwithin⟩
          exact ⟨List.mem_cons_of_mem _ hmem, hwithin⟩
        · rintro ⟨hmem, hwithin⟩
          rcases List.mem_cons.1 hmem with heq | hmem'
          · exfalso
            have hcd : c = d := (Prod.ext_iff.1 heq).2
            rw [hcd] at hwithin
            exact absurd hexp (not_lt.2 hwithin)
          · exact ⟨hmem', hwithin⟩
      · simp only [V2.sweepConvs, if_neg hexp, List.mem_cons]
        rw [ih]
        constructor
        · rintro (heq | ⟨hmem, hwithin⟩)
          · have hcd : c = d := (Prod.ext_iff.1 heq).2
            refine ⟨Or.inl heq, ?_⟩
            rw [hcd]
            exact not_lt.1 hexp
          · exact ⟨Or.inr hmem, hwithin⟩
        · rintro ⟨heq | hmem', hwithin⟩
          · exact Or.inl heq
          · exact Or.inr ⟨hmem', hwithin⟩

theorem sweepConvs_deleted_key_not_mem (now : Millis) :
    ∀ (store : List (String × V2.Conv)) (timers : List String)
      (pool : List (String × V2.Stats)) (ph : String) (c : V2.Conv),
      (ph, c) ∈ store → V2.DATA_RETENTION_TIME < now - c.last_activity →
      V2.timeoutKey ph c.current_checkpoint ∉
        (V2.sweepConvs now store timers pool).2.1 := by
  intro store
  induction store with
  | nil =>
      intro timers pool ph c hmem
      simp at hmem
  | cons p rest ih =>
      intro timers pool ph c hmem hexp
      obtain ⟨q, d⟩ := p
      rcases List.mem_cons.1 hmem with heq | hmem'
      · have hq : q = ph := (Prod.ext_iff.1 heq).1.symm
        have hd : d = c := (Prod.ext_iff.1 heq).2.symm
        subst hq; subst hd
        simp only [V2.sweepConvs, if_pos hexp]
        intro hk
        exact not_mem_removeKey_self _ _ (sweepConvs_timers_subset now _ _ _ _ hk)
      · by_cases hexpd : V2.DATA_RETENTION_TIME < now - d.last_activity
        · simp only [V2.sweepConvs, if_pos hexpd]
          exact ih _ _ _ _ hmem' hexp
        · simp only [V2.sweepConvs, if_neg hexpd]
          exact ih _ _ _ _ hmem' hexp


/-! ## Instance-selection lemmas -/

theorem bestLoop_ge (now : Millis) :
    ∀ (pool : List (String × V1.Stats)) (b : Option String) (sc : ℚ),
      sc ≤ (V1.bestLoop now pool (b, sc)).2 := by
  intro pool
  induction pool with
  | nil => intro b sc; simp [V1.bestLoop]
  | cons p rest ih =>
      intro b sc
      obtain ⟨n, s⟩ := p
      by_cases hb : s.blocked
      · simp only [V1.bestLoop, if_pos hb]
        exact ih b sc
      · by_cases hlt : sc < V1.score now s
        · simp only [V1.bestLoop, if_neg hb, if_pos hlt]
          exact le_trans (le_of_lt hlt) (ih _ _)
        · simp only [V1.bestLoop, if_neg hb, if_neg hlt]
          exact ih b sc

theorem bestLoop_ub (now : Millis) :
    ∀ (pool : List (String × V1.Stats)) (b : Option String) (sc : ℚ)
      (p : String × V1.Stats), p ∈ pool → p.2.blocked = false →
      V1.score now p.2 ≤ (V1.bestLoop now pool (b, sc)).2 := by
  intro pool
  induction pool with
  | nil => intro b sc p h; simp at h
  | cons q rest ih =>
      intro b sc p hmem hnb
      obtain ⟨n, s⟩ := q
      rcases List.mem_cons.1 hmem with heq | hmem'
      · have hps : p.2 = s := by rw [heq]
        rw [hps] at hnb ⊢
        have hb : ¬ (s.blocked = true) := by simp [hnb]
        by_cases hlt : sc < V1.score now s
        · simp only [V1.bestLoop, if_neg hb, if_pos hlt]
          exact bestLoop_ge now rest _ _
        · simp only [V1.bestLoop, if_neg hb, if_neg hlt]
          exact le_trans (not_lt.1 hlt) (bestLoop_ge now rest _ _)
      · by_cases hb : s.blocked
        · simp only [V1.bestLoop, if_pos hb]
          exact ih b sc p hmem' hnb
        · by_cases hlt : sc < V1.score now s
          · simp only [V1.bestLoop, if_neg hb, if_pos hlt]
            exact ih _ _ p hmem' hnb
          · simp only [V1.bestLoop, if_neg hb, if_neg hlt]
            exact ih b sc p hmem' hnb

theorem bestLoop_stay (now : Millis) :
    ∀ (pool : List (String × V1.Stats)) (b : Option String) (sc : ℚ),
      (V1.bestLoop now pool (b, sc)).2 = sc →
      (V1.bestLoop now pool (b, sc)).1 = b := by
  intro pool
  induction pool with
  | nil => intro b sc _; simp [V1.bestLoop]
  | cons q rest ih =>
      intro b sc hsc
      obtain ⟨n, s⟩ := q
      by_cases hb : s.blocked
      · simp only [V1.bestLoop, if_pos hb] at hsc ⊢
        exact ih b sc hsc
      · by_cases hlt : sc < V1.score now s
        · exfalso
          simp only [V1.bestLoop, if_neg hb, if_pos hlt] at hsc
          have := bestLoop_ge now rest (some n) (V1.score now s)
          rw [hsc] at this
          exact absurd (lt_of_lt_of_le hlt this) (lt_irrefl sc)
        · simp only [V1.bestLoop, if_neg hb, if_neg hlt] at hsc ⊢
          exact ih b sc hsc

theorem bestLoop_hit (now : Millis) :
    ∀ (pool : List (String × V1.Stats)) (b : Option String) (sc : ℚ),
      sc < (V1.bestLoop now pool (b, sc)).2 →
      ∃ pre n s suf,
        pool = pre ++ (n, s) :: suf
        ∧ s.blocked = false
        ∧ (V1.bestLoop now pool (b, sc)).1 = some n
        ∧ (V1.bestLoop now pool (b, sc)).2 = V1.score now s
        ∧ ∀ p : String × V1.Stats, p ∈ pre → p.2.blocked = false →
            V1.score now p.2 < V1.score now s := by
  intro pool
  induction pool with
  | nil =>
      intro b sc h
      simp only [V1.bestLoop] at h
      exact absurd h (lt_irrefl sc)
  | cons q rest ih =>
      intro b sc hlt0
      obtain ⟨n₀, s₀⟩ := q
      by_cases hb : s₀.blocked
      · simp only [V1.bestLoop, if_pos hb] at hlt0 ⊢
        obtain ⟨pre, n, s, suf, hsplit, hnb, h1, h2, hpre⟩ := ih b sc hlt0
        refine ⟨(n₀, s₀) :: pre, n, s, suf, by rw [hsplit, List.cons_append], hnb, h1, h2, ?_⟩
        intro p hp hpnb
        rcases List.mem_cons.1 hp with heq | hp'
        · exfalso
          have : p.2 = s₀ := by rw [heq]
          rw [this] at hpnb
          rw [hpnb] at hb
          exact absurd hb (by simp)
        · exact hpre p hp' hpnb
      · by_cases hlt : sc < V1.score now s₀
        · simp only [V1.bestLoop, if_neg hb, if_pos hlt] at hlt0 ⊢
          by_cases heq : (V1.bestLoop now rest (some n₀, V1.score now s₀)).2
              = V1.score now s₀
          · refine ⟨[], n₀, s₀, rest, rfl, by simp [hb], ?_, heq, by simp⟩
            exact bestLoop_stay now rest _ _ heq
          · have hgt : V1.score now s₀ <
                (V1.bestLoop now rest (some n₀, V1.score now s₀)).2 :=
              lt_of_le_of_ne (bestLoop_ge now rest _ _) (Ne.symm heq)
            obtain ⟨pre, n, s, suf, hsplit, hnb, h1, h2, hpre⟩ :=
              ih (some n₀) (V1.score now s₀) hgt
            refine ⟨(n₀, s₀) :: pre, n, s, suf, by rw [hsplit, List.cons_append], hnb, h1, h2, ?_⟩
            intro p hp hpnb
            rcases List.mem_cons.1 hp with heq' | hp'
            · have : p.2 = s₀ := by rw [heq']
              rw [this]
              rw [h2] at hgt
              exact hgt
            · exact hpre p hp' hpnb
        · simp only [V1.bestLoop, if_neg hb, if_neg hlt] at hlt0 ⊢
          obtain ⟨pre, n, s, suf, hsplit, hnb, h1, h2, hpre⟩ := ih b sc hlt0
          refine ⟨(n₀, s₀) :: pre, n, s, suf, by rw [hsplit, List.cons_append], hnb, h1, h2, ?_⟩
          intro p hp hpnb
          rcases List.mem_cons.1 hp with heq' | hp'
          · have hps : p.2 = s₀ := by rw [heq']
            rw [hps]
            have hle : V1.score now s₀ ≤ sc := not_lt.1 hlt
            rw [h2] at hlt0
            exact lt_of_le_of_lt hle hlt0
          · exact hpre p hp' hpnb

theorem bestLoop_all_blocked (now : Millis) :
    ∀ (pool : List (String × V1.Stats)) (b : Option String) (sc : ℚ),
      (∀ p : String × V1.Stats, p ∈ pool → p.2.blocked = true) →
      V1.bestLoop now pool (b, sc) = (b, sc) := by
  intro pool
  induction pool with
  | nil => intro b sc _; rfl
  | cons q rest ih =>
      intro b sc hall
      obtain ⟨n, s⟩ := q
      have hb : s.blocked = true := hall (n, s) (List.mem_cons_self _ _)
      simp only [V1.bestLoop, if_pos hb]
      exact ih b sc (fun p hp => hall p (List.mem_cons_of_mem _ hp))

theorem score_nonneg (now : Millis) (t : V1.Stats)
    (h1 : 0 ≤ t.response_rate) (h2 : 0 ≤ t.health_score) :
    0 ≤ V1.score now t := by
  simp only [V1.score]
  have hl : (0 : ℚ) ≤ max 0 (100 - (t.active_conversations : ℚ) * 2) :=
    le_max_left _ _
  have ht : (0 : ℚ) ≤
      (if now - t.last_activity < 300000 then (10 : ℚ) else 0) := by
    split <;> norm_num
  have h4 : (0:ℚ) ≤ (4/10 : ℚ) := by norm_num
  have h3 : (0:ℚ) ≤ (3/10 : ℚ) := by norm_num
  have h2' : (0:ℚ) ≤ (2/10 : ℚ) := by norm_num
  have h1' : (0:ℚ) ≤ (1/10 : ℚ) := by norm_num
  exact add_nonneg (add_nonneg (add_nonneg (mul_nonneg hl h4)
    (mul_nonneg h1 h3)) (mul_nonneg h2 h2')) (mul_nonneg ht h1')

theorem mod_cycle_exists_unique (n c j : Nat) (hn : 0 < n) (hj : j < n) :
    ∃! i, i < n ∧ (c + i) % n = j := by
  have hr : c % n < n := Nat.mod_lt _ hn
  refine ⟨(n + j - c % n) % n, ⟨Nat.mod_lt _ hn, ?_⟩, ?_⟩
  · have h1 : c + (n + j - c % n) % n ≡ c % n + (n + j - c % n) [MOD n] :=
      Nat.ModEq.add (Nat.mod_modEq c n).symm (Nat.mod_modEq _ n)
    have h2 : c % n + (n + j - c % n) = n + j := by omega
    have h3 : c + (n + j - c % n) % n ≡ n + j [MOD n] := by
      rw [h2] at h1
      exact h1
    have h4 : (n + j) ≡ j [MOD n] := by
      show (n + j) % n = j % n
      exact Nat.add_mod_left n j
    have h5 := h3.trans h4
    show (c + (n + j - c % n) % n) % n = j
    calc (c + (n + j - c % n) % n) % n = j % n := h5
      _ = j := Nat.mod_eq_of_lt hj
  · rintro i' ⟨hi', heq'⟩
    have hmain : (c + (n + j - c % n) % n) % n = j := by
      have h1 : c + (n + j - c % n) % n ≡ c % n + (n + j - c % n) [MOD n] :=
        Nat.ModEq.add (Nat.mod_modEq c n).symm (Nat.mod_modEq _ n)
      have h2 : c % n + (n + j - c % n) = n + j := by omega
      rw [h2] at h1
      have h4 : (n + j) ≡ j [MOD n] := by
        show (n + j) % n = j % n
        exact Nat.add_mod_left n j
      have h5 := h1.trans h4
      show (c + (n + j - c % n) % n) % n = j
      calc (c + (n + j - c % n) % n) % n = j % n := h5
        _ = j := Nat.mod_eq_of_lt hj
    have hcc : c + i' ≡ c + (n + j - c % n) % n [MOD n] := by
      show (c + i') % n = (c + (n + j - c % n) % n) % n
      rw [heq', hmain]
    have hii : i' ≡ (n + j - c % n) % n [MOD n] :=
      Nat.ModEq.add_left_cancel' c hcc
    have hthis : i' % n = ((n + j - c % n) % n) % n := hii
    rw [Nat.mod_eq_of_lt hi', Nat.mod_mod_of_dvd _ dvd_rfl] at hthis
    exact hthis

/-! ## Trace-invariant lemmas -/

theorem step_preserves_waiting_inv (p : String) (sg : V2.Sys × Bool)
    (op : V2.Op)
    (hinv : ∀ c : V2.Conv, (p, c) ∈ sg.1.store →
      c.waiting_response = (c.current_checkpoint.isSome && sg.2)) :
    ∀ c : V2.Conv, (p, c) ∈ (V2.step p sg.1 op).store →
      c.waiting_response
        = (c.current_checkpoint.isSome && V2.sinceActivation p sg.1 op sg.2) := by
  cases op with
  | create now name src =>
      by_cases hex : (lookupA p sg.1.store).isSome = true
      · simp only [V2.step, if_pos hex, V2.sinceActivation, if_pos hex]
        exact hinv
      · simp only [V2.step, if_neg hex, V2.sinceActivation, if_neg hex,
          V2.createConversation]
        intro c hc
        have hceq := mem_setA_self_eq hc
        rw [hceq]
        simp
  | activate now cp =>
      cases hl : lookupA p sg.1.store with
      | none =>
          simp only [V2.step, V2.activateCheckpoint, hl, V2.sinceActivation,
            Option.isSome_none, Bool.false_eq_true, if_false]
          exact hinv
      | some c₀ =>
          simp only [V2.step, V2.activateCheckpoint, hl, V2.sinceActivation,
            Option.isSome_some, if_true]
          intro c hc
          have hceq := mem_setA_self_eq hc
          rw [hceq]
          simp
  | resolve now msg =>
      cases hl : lookupA p sg.1.store with
      | none =>
          simp only [V2.step, V2.processCheckpointResponse, hl,
            V2.sinceActivation]
          exact hinv
      | some c₀ =>
          cases hw : c₀.waiting_response with
          | false =>
              simp only [V2.step, V2.processCheckpointResponse, hl, hw,
                V2.sinceActivation, Bool.not_false, if_true, if_false,
                Bool.false_eq_true]
              exact hinv
          | true =>
              simp only [V2.step, V2.processCheckpointResponse, hl, hw,
                V2.sinceActivation, Bool.not_true, Bool.false_eq_true,
                if_false, if_true]
              intro c hc
              have hceq := mem_setA_self_eq hc
              rw [hceq]
              simp
  | fire now cp =>
      cases hl : lookupA p sg.1.store with
      | none =>
          simp only [V2.step, V2.handleCheckpointTimeout, hl,
            V2.sinceActivation]
          exact hinv
      | some c₀ =>
          by_cases hg : c₀.current_checkpoint = some cp
          · have hg' : ¬ (c₀.current_checkpoint ≠ some cp) := by simp [hg]
            simp only [V2.step, V2.handleCheckpointTimeout, hl, hg',
              V2.sinceActivation, if_pos hg, if_false]
            intro c hc
            have hceq := mem_setA_self_eq hc
            rw [hceq]
            simp
          · have hg' : c₀.current_checkpoint ≠ some cp := hg
            simp only [V2.step, V2.handleCheckpointTimeout, hl,
              V2.sinceActivation, if_neg hg, if_pos hg']
            exact hinv
  | sweep now =>
      simp only [V2.step, V2.cleanupOldData, V2.sinceActivation]
      intro c hc
      have hmem := ((sweepConvs_mem_iff now sg.1.store sg.1.timers sg.1.pool
        p c).1 hc).1
      exact hinv c hmem


theorem step_preserves_timerInv (p : String) (s : V2.Sys) (op : V2.Op)
    (h : timerInv p s) : timerInv p (V2.step p s op) := by
  obtain ⟨huniq, hlen, hkey⟩ := h
  cases op with
  | create now name src =>
      by_cases hex : (lookupA p s.store).isSome = true
      · simpa [V2.step, hex, timerInv] using ⟨huniq, hlen, hkey⟩
      · have hnone : lookupA p s.store = none := by
          cases hcase : lookupA p s.store with
          | none => rfl
          | some c => rw [hcase] at hex; simp at hex
        have htimers : s.timers = [] := by
          cases hcase : s.timers with
          | nil => rfl
          | cons k ks =>
              exfalso
              have hkmem : k ∈ s.timers := by
                rw [hcase]
                exact List.mem_cons_self _ _
              obtain ⟨c, hc, _⟩ := hkey k hkmem
              exact lookupA_eq_none_not_mem hnone c hc
        have hany := lookupA_none_any_false hnone
        simp only [V2.step, if_neg hex, V2.createConversation]
        refine ⟨?_, ?_, ?_⟩
        · intro c c' hc hc'
          rw [mem_setA_self_eq hc, mem_setA_self_eq hc']
        · simp [htimers]
        · intro k hk
          simp only [htimers] at hk
          simp at hk
  | activate now cp =>
      cases hl : lookupA p s.store with
      | none =>
          simp only [V2.step, V2.activateCheckpoint, hl]
          exact ⟨huniq, hlen, hkey⟩
      | some c₀ =>
          have hc₀mem : (p, c₀) ∈ s.store := lookupA_mem hl
          have hall : ∀ x ∈ s.timers,
              x = V2.timeoutKey p c₀.current_checkpoint := by
            intro x hx
            obtain ⟨c, hcmem, hkeq⟩ := hkey x hx
            rw [hkeq, huniq c c₀ hcmem hc₀mem]
          have hrk : V2.removeKey (V2.timeoutKey p c₀.current_checkpoint)
              s.timers = [] := removeKey_eq_nil hall
          simp only [V2.step, V2.activateCheckpoint, hl, hrk]
          refine ⟨?_, ?_, ?_⟩
          · intro c c' hc hc'
            rw [mem_setA_self_eq hc, mem_setA_self_eq hc']
          · simp [V2.armKey]
          · intro k hk
            simp [V2.armKey] at hk
            refine ⟨_, mem_setA_self p _ s.store, ?_⟩
            rw [hk]
  | resolve now msg =>
      cases hl : lookupA p s.store with
      | none =>
          simp only [V2.step, V2.processCheckpointResponse, hl]
          exact ⟨huniq, hlen, hkey⟩
      | some c₀ =>
          cases hw : c₀.waiting_response with
          | false =>
              simp only [V2.step, V2.processCheckpointResponse, hl, hw,
                Bool.not_false, if_true]
              exact ⟨huniq, hlen, hkey⟩
          | true =>
              have hc₀mem : (p, c₀) ∈ s.store := lookupA_mem hl
              have hall : ∀ x ∈ s.timers,
                  x = V2.timeoutKey p c₀.current_checkpoint := by
                intro x hx
                obtain ⟨c, hcmem, hkeq⟩ := hkey x hx
                rw [hkeq, huniq c c₀ hcmem hc₀mem]
              have hrk : V2.removeKey (V2.timeoutKey p c₀.current_checkpoint)
                  s.timers = [] := removeKey_eq_nil hall
              simp only [V2.step, V2.processCheckpointResponse, hl, hw,
                Bool.not_true, Bool.false_eq_true, if_false, hrk]
              refine ⟨?_, ?_, ?_⟩
              · intro c c' hc hc'
                rw [mem_setA_self_eq hc, mem_setA_self_eq hc']
              · simp
              · intro k hk
                simp at hk
  | fire now cp =>
      cases hl : lookupA p s.store with
      | none =>
          simp only [V2.step, V2.handleCheckpointTimeout, hl]
          exact ⟨huniq, hlen, hkey⟩
      | some c₀ =>
          by_cases hg : c₀.current_checkpoint = some cp
          · have hg' : ¬ (c₀.current_checkpoint ≠ some cp) := by simp [hg]
            simp only [V2.step, V2.handleCheckpointTimeout, hl, if_neg hg']
            have hc₀mem : (p, c₀) ∈ s.store := lookupA_mem hl
            refine ⟨?_, hlen, ?_⟩
            · intro c c' hc hc'
              rw [mem_setA_self_eq hc, mem_setA_self_eq hc']
            · intro k hk
              obtain ⟨c, hcmem, hkeq⟩ := hkey k hk
              have hcc₀ : c = c₀ := huniq c c₀ hcmem hc₀mem
              refine ⟨_, mem_setA_self p _ s.store, ?_⟩
              rw [hkeq, hcc₀]
          · have hg' : c₀.current_checkpoint ≠ some cp := hg
            simp only [V2.step, V2.handleCheckpointTimeout, hl, if_pos hg']
            exact ⟨huniq, hlen, hkey⟩
  | sweep now =>
      simp only [V2.step, V2.cleanupOldData]
      refine ⟨?_, ?_, ?_⟩
      · intro c c' hc hc'
        exact huniq c c'
          ((sweepConvs_mem_iff now s.store s.timers s.pool p c).1 hc).1
          ((sweepConvs_mem_iff now s.store s.timers s.pool p c').1 hc').1
      · exact le_trans (sweepConvs_timers_length_le now s.store s.timers
          s.pool) hlen
      · intro k hk
        have hkt : k ∈ s.timers :=
          sweepConvs_timers_subset now s.store s.timers s.pool k hk
        obtain ⟨c, hcmem, hkeq⟩ := hkey k hkt
        by_cases hexp : V2.DATA_RETENTION_TIME < now - c.last_activity
        · exfalso
          have hnot := sweepConvs_deleted_key_not_mem now s.store s.timers
            s.pool p c hcmem hexp
          rw [hkeq] at hk
          exact hnot hk
        · exact ⟨c, (sweepConvs_mem_iff now s.store s.timers s.pool p c).2
            ⟨hcmem, not_lt.1 hexp⟩, hkeq⟩

theorem run_timerInv (p : String) (cfg : List V2.InstanceCfg) (now0 : Millis)
    (ops : List V2.Op) : timerInv p (V2.run p (V2.initSys cfg now0) ops) := by
  have hinit : timerInv p (V2.initSys cfg now0) := by
    refine ⟨?_, ?_, ?_⟩ <;> simp [V2.initSys]
  have main : ∀ (ops : List V2.Op) (s : V2.Sys), timerInv p s →
      timerInv p (V2.run p s ops) := by
    intro ops
    induction ops with
    | nil => intro s h; simpa [V2.run] using h
    | cons op rest ih =>
        intro s h
        simp only [V2.run, List.foldl_cons]
        have := step_preserves_timerInv p s op h
        simpa [V2.run] using ih _ this
  exact main ops _ hinit


/-! ## Claim theorems -/

/-- C3: a `resolve` on an existing conversation whose waiting flag is false
or whose current checkpoint is null returns the NotWaiting error and mutates
nothing: in V1 (`processClientResponse`, src/index.js lines 188-191) the
store, the instance stats and the global history are returned unchanged, and
in V2 (`processCheckpointResponse`, part_001 lines 275-278) the entire
system state is unchanged. -/
theorem c3_not_waiting_no_mutation
    (now : Millis) (phone msg : String)
    (store : List (String × V1.Conv)) (pool : List (String × V1.Stats))
    (hist : List V1.GlobalHist) (c : V1.Conv)
    (s : V2.Sys) (c₂ : V2.Conv)
    (h1 : lookupA phone store = some c)
    (h2 : c.waiting_for_response = false ∨ c.current_checkpoint = none)
    (h3 : lookupA phone s.store = some c₂)
    (h4 : c₂.waiting_response = false) :
    V1.processClientResponse now phone msg store pool hist
      = (.notWaiting, store, pool, hist)
    ∧ V2.processCheckpointResponse s now phone msg = (.notWaiting, s) := by
  constructor
  · rcases h2 with h2 | h2
    · simp [V1.processClientResponse, h1, h2]
    · simp [V1.processClientResponse, h1, h2, V1.isFalsyCp]
  · simp [V2.processCheckpointResponse, h3, h4]

/-- C3 witness: a concrete freshly created conversation (not waiting) in
both variants. -/
theorem c3_witness :
    (lookupA "5511999999999"
        [("5511999999999", V1.createConversationState 500 "5511999999999"
            "Cliente" "G01")]
      = some (V1.createConversationState 500 "5511999999999" "Cliente" "G01"))
    ∧ ((V1.createConversationState 500 "5511999999999" "Cliente"
          "G01").waiting_for_response = false
        ∨ (V1.createConversationState 500 "5511999999999" "Cliente"
            "G01").current_checkpoint = none)
    ∧ (lookupA "5511999999999"
        ((V2.createConversation (V2.initSys V2.INSTANCES 400) 500
            "5511999999999" "Cliente" "ads").2).store
      = some ((V2.createConversation (V2.initSys V2.INSTANCES 400) 500
            "5511999999999" "Cliente" "ads").1))
    ∧ ((V2.createConversation (V2.initSys V2.INSTANCES 400) 500
          "5511999999999" "Cliente" "ads").1.waiting_response = false)
    ∧ (V1.processClientResponse 600 "5511999999999" "hello"
        [("5511999999999", V1.createConversationState 500 "5511999999999"
            "Cliente" "G01")]
        [("G01", V1.initialStats 400)] []
      = (.notWaiting,
         [("5511999999999", V1.createConversationState 500 "5511999999999"
             "Cliente" "G01")],
         [("G01", V1.initialStats 400)], [])
      ∧ V2.processCheckpointResponse
          ((V2.createConversation (V2.initSys V2.INSTANCES 400) 500
              "5511999999999" "Cliente" "ads").2) 600 "5511999999999" "hello"
        = (.notWaiting,
           (V2.createConversation (V2.initSys V2.INSTANCES 400) 500
              "5511999999999" "Cliente" "ads").2)) :=
  ⟨by decide, by decide, by decide, by decide,
   c3_not_waiting_no_mutation 600 "5511999999999" "hello"
     [("5511999999999", V1.createConversationState 500 "5511999999999"
         "Cliente" "G01")]
     [("G01", V1.initialStats 400)] []
     (V1.createConversationState 500 "5511999999999" "Cliente" "G01")
     ((V2.createConversation (V2.initSys V2.INSTANCES 400) 500
         "5511999999999" "Cliente" "ads").2)
     ((V2.createConversation (V2.initSys V2.INSTANCES 400) 500
         "5511999999999" "Cliente" "ads").1)
     (by decide) (by decide) (by decide) (by decide)⟩

/-- C1: `resolve` directly after `activate(K)` (no intervening timeout)
succeeds with the full postcondition.  In V1 (src/index.js lines 157-239):
the activation succeeds, the resolution returns checkpoint `K` and the
incremented cumulative passed count, the conversation ends with a null
checkpoint, waiting false, refreshed last-activity and one new local history
and response record (latency `t1 - t0`, activation time `t0`), the global
history log gains the matching record, the assigned instance receives the
`response_received` stat deltas, and the deadline timeout can no longer fire
on the resolved conversation (the sweeper expiry step leaves it unchanged).
In V2 (part_001 lines 282-287) the resolution removes the pending timer key
of the active checkpoint from `checkpointTimeouts`. -/
theorem c1_resolve_after_activate
    (t0 t1 : Millis) (phone K msg : String)
    (store0 : List (String × V1.Conv)) (pool : List (String × V1.Stats))
    (hist : List V1.GlobalHist) (c0 : V1.Conv)
    (s : V2.Sys) (c₂ : V2.Conv)
    (hc : lookupA phone store0 = some c0)
    (hK : K ≠ "")
    (hc2 : lookupA phone s.store = some c₂)
    (hw2 : c₂.waiting_response = true) :
    (V1.activateCheckpoint t0 phone K store0).1 = .ok K phone
    ∧ (V1.processClientResponse t1 phone msg
        (V1.activateCheckpoint t0 phone K store0).2 pool hist).1
      = .ok (some K) msg (c0.total_checkpoints_passed + 1)
    ∧ lookupA phone
        (V1.processClientResponse t1 phone msg
          (V1.activateCheckpoint t0 phone K store0).2 pool hist).2.1
      = some (c1PostConv t0 t1 K msg c0)
    ∧ (V1.processClientResponse t1 phone msg
        (V1.activateCheckpoint t0 phone K store0).2 pool hist).2.2.2
      = c1PostEntry t0 t1 phone K msg c0 :: hist
    ∧ (∀ st, lookupA c0.instanceName pool = some st →
        lookupA c0.instanceName
          (V1.processClientResponse t1 phone msg
            (V1.activateCheckpoint t0 phone K store0).2 pool hist).2.2.1
        = some { st with
            response_rate := min 100 (st.response_rate + 1/2),
            health_score := min 100 (st.health_score + 1) })
    ∧ (∀ t2 pool', V1.expireConv t2 (c1PostConv t0 t1 K msg c0) pool'
        = (c1PostConv t0 t1 K msg c0, pool'))
    ∧ V2.timeoutKey phone c₂.current_checkpoint ∉
        ((V2.processCheckpointResponse s t1 phone msg).2).timers := by
  have hact : V1.activateCheckpoint t0 phone K store0
      = (.ok K phone, setA phone
          { c0 with current_checkpoint := some K,
                    waiting_for_response := true,
                    last_activity := t0,
                    expires_at := t0 + V1.CHECKPOINT_TIMEOUT }
          store0) := by
    simp [V1.activateCheckpoint, hc]
  have hfal : V1.isFalsyCp (some K) = false := by
    simp [V1.isFalsyCp, hK]
  refine ⟨?_, ?_, ?_, ?_, ?_, ?_, ?_⟩
  · rw [hact]
  · rw [hact]
    simp [V1.processClientResponse, lookupA_setA_self, hfal]
  · rw [hact]
    simp only [V1.processClientResponse, lookupA_setA_self, hfal,
      Bool.not_true, Bool.false_or, Bool.false_eq_true, if_false]
    simp [c1PostConv]
  · rw [hact]
    simp [V1.processClientResponse, lookupA_setA_self, hfal, c1PostEntry]
  · intro st hst
    rw [hact]
    simp only [V1.processClientResponse, lookupA_setA_self, hfal,
      Bool.not_true, Bool.false_or, Bool.false_eq_true, if_false]
    rw [V1.updateInstanceStats, lookupA_map_adjust, hst]
    simp [V1.applyStatEvent]
  · intro t2 pool'
    simp [V1.expireConv, c1PostConv]
  · simp only [V2.processCheckpointResponse, hc2, hw2, Bool.not_true,
      Bool.false_eq_true, if_false]
    exact not_mem_removeKey_self _ _

/-- C1 witness: a concrete activation at time 1000 followed by a resolution
at time 2000, for a conversation created at time 500. -/
theorem c1_witness :
    (lookupA "5511999999999"
        [("5511999999999", V1.createConversationState 500 "5511999999999"
            "Cliente" "G01")]
      = some (V1.createConversationState 500 "5511999999999" "Cliente" "G01"))
    ∧ "confirm_interest" ≠ ""
    ∧ (V1.processClientResponse 2000 "5511999999999" "yes"
        (V1.activateCheckpoint 1000 "5511999999999" "confirm_interest"
          [("5511999999999", V1.createConversationState 500 "5511999999999"
              "Cliente" "G01")]).2
        [("G01", V1.initialStats 400)] []).1
      = .ok (some "confirm_interest") "yes" 1 := by
  refine ⟨by decide, by decide, ?_⟩
  have h := c1_resolve_after_activate 1000 2000 "5511999999999"
    "confirm_interest" "yes"
    [("5511999999999", V1.createConversationState 500 "5511999999999"
        "Cliente" "G01")]
    [("G01", V1.initialStats 400)] []
    (V1.createConversationState 500 "5511999999999" "Cliente" "G01")
    ((V2.activateCheckpoint
        ((V2.createConversation (V2.initSys V2.INSTANCES 400) 500
            "5511999999999" "Cliente" "ads").2) 1000 "5511999999999"
        "confirm_interest").2)
    { phone := "5511999999999", name := "Cliente", instanceName := "G08",
      instance_id := "A63C380B277D-4A5E-9ECD-48710291E5A6", source := "ads",
      current_checkpoint := some "confirm_interest", checkpoints := [],
      waiting_response := true, created_at := 500, last_activity := 1000,
      status := "active", checkpoint_activated_at := 1000 }
    (by decide) (by decide) (by decide) (by decide)
  exact h.2.1

/-- C2: the claim asserts that after a checkpoint has been resolved, a
subsequent invocation of the timeout handler for the same checkpoint is a
no-op.  The part_001 code falsifies this: `processCheckpointResponse` does
not clear `current_checkpoint`, and `handleCheckpointTimeout` only compares
the checkpoint name (it never tests `waiting_response`), so the stale
invocation passes the guard, flips the status to timeout, applies the
timeout stat deltas and emits a `checkpoint_timeout` notification.  This
theorem evaluates the code at the failing input: resolve at time 2000,
stale timeout invocation at time 3000. -/
theorem c2_stale_timeout_not_noop :
    ((V2.processCheckpointResponse exActivated 2000 "5511999999999" "yes").1
      = .ok (some "confirm_interest") "yes" "G08")
    ∧ ((lookupA "5511999999999" exResolved.store).map V2.Conv.waiting_response
      = some false)
    ∧ ((lookupA "5511999999999" exResolved.store).map V2.Conv.status
      = some "active")
    ∧ ((lookupA "G08" exResolved.pool).map V2.Stats.timeouts = some 0)
    ∧ exResolved.notes = []
    ∧ ((lookupA "5511999999999" exFired.store).map V2.Conv.status
      = some "timeout")
    ∧ ((lookupA "G08" exFired.pool).map V2.Stats.timeouts = some 1)
    ∧ exFired.notes.length = 1 := by decide

/-- C4 counterexample: the claim asserts that a timeout on a waiting
checkpoint applies a conversation-complete event decrementing the
instance's active-conversation count.  In part_001 `handleCheckpointTimeout`
applies only the `timeout` stat event: after the timeout fires on the
waiting conversation, the active count is still 1, not 0. -/
theorem c4_counterexample :
    ((lookupA "5511999999999" exActivated.store).map V2.Conv.waiting_response
      = some true)
    ∧ ((lookupA "5511999999999" exActivated.store).map
        V2.Conv.current_checkpoint = some (some "confirm_interest"))
    ∧ ((lookupA "G08" exActivated.pool).map V2.Stats.active_conversations
      = some 1)
    ∧ ((lookupA "G08" exFiredWaiting.pool).map V2.Stats.timeouts = some 1)
    ∧ ¬ ((lookupA "G08" exFiredWaiting.pool).map
        V2.Stats.active_conversations = some 0) := by decide

/-- C4 amended: when the timeout handler fires for a conversation that
still has that checkpoint active and is still waiting
(`handleCheckpointTimeout`, part_001 lines 243-266), the transition sets
waiting to false, sets the status to timeout, applies a single timeout stat
event (timeout count +1, response rate -2 floored at 0, health -3 floored
at 0, last activity refreshed), increments the daily timeout counter and
emits a `checkpoint_timeout` notification; no conversation-complete event
is applied, so the instance's active-conversation count is unchanged, and
the timer key set is unchanged. -/
theorem c4_timeout_transition
    (s : V2.Sys) (now : Millis) (phone K : String) (c : V2.Conv)
    (st : V2.Stats)
    (hc : lookupA phone s.store = some c)
    (hcp : c.current_checkpoint = some K)
    (_hw : c.waiting_response = true)
    (hst : lookupA c.instanceName s.pool = some st) :
    lookupA phone (V2.handleCheckpointTimeout s now phone K).store
      = some { c with waiting_response := false, status := "timeout" }
    ∧ lookupA c.instanceName (V2.handleCheckpointTimeout s now phone K).pool
      = some { st with
          timeouts := st.timeouts + 1,
          response_rate := max 0 (st.response_rate - 2),
          health_score := max 0 (st.health_score - 3),
          last_activity := now }
    ∧ (V2.handleCheckpointTimeout s now phone K).daily.timeouts
      = s.daily.timeouts + 1
    ∧ (V2.handleCheckpointTimeout s now phone K).notes
      = s.notes ++ [{ event := "checkpoint_timeout", phone := phone,
                      checkpoint := some K, instanceName := c.instanceName }]
    ∧ (V2.handleCheckpointTimeout s now phone K).timers = s.timers := by
  have hguard : ¬ (c.current_checkpoint ≠ some K) := by simp [hcp]
  refine ⟨?_, ?_, ?_, ?_, ?_⟩
  · simp only [V2.handleCheckpointTimeout, hc, hguard, if_false]
    exact lookupA_setA_self _ _ _
  · simp only [V2.handleCheckpointTimeout, hc, hguard, if_false,
      V2.updateInstanceStats]
    rw [lookupA_map_adjust, hst]
    simp [V2.applyStatEvent]
  · simp [V2.handleCheckpointTimeout, hc, hguard]
  · simp [V2.handleCheckpointTimeout, hc, hguard]
  · simp [V2.handleCheckpointTimeout, hc, hguard]

/-- C4 witness: the amended transition evaluated on the concrete waiting
conversation (timeout at time 3000). -/
theorem c4_witness :
    (lookupA "5511999999999" exActivated.store = some exConvActivated)
    ∧ (exConvActivated.current_checkpoint = some "confirm_interest")
    ∧ (exConvActivated.waiting_response = true)
    ∧ (lookupA exConvActivated.instanceName exActivated.pool
        = some exStatsCreated)
    ∧ (lookupA exConvActivated.instanceName
        (V2.handleCheckpointTimeout exActivated 3000 "5511999999999"
          "confirm_interest").pool
      = some { exStatsCreated with
          timeouts := exStatsCreated.timeouts + 1,
          response_rate := max 0 (exStatsCreated.response_rate - 2),
          health_score := max 0 (exStatsCreated.health_score - 3),
          last_activity := 3000 }) :=
  ⟨by decide, by decide, by decide, by decide,
   (c4_timeout_transition exActivated 3000 "5511999999999" "confirm_interest"
     exConvActivated exStatsCreated (by decide) (by decide) (by decide)
     (by decide)).2.1⟩


/-- C7: a sweeper pass (`cleanupOldData`, part_001 lines 601-650) keeps
exactly the conversations whose last activity is within the retention
horizon, with their state untouched, and the pending timer key of every
deleted conversation is gone from the timer map afterwards. -/
theorem c7_retention_sweep (s : V2.Sys) (now : Millis) (ph : String)
    (c : V2.Conv) :
    ((ph, c) ∈ (V2.cleanupOldData s now).store ↔
      ((ph, c) ∈ s.store ∧ now - c.last_activity ≤ V2.DATA_RETENTION_TIME))
    ∧ ((ph, c) ∈ s.store → V2.DATA_RETENTION_TIME < now - c.last_activity →
        V2.timeoutKey ph c.current_checkpoint ∉
          (V2.cleanupOldData s now).timers) := by
  constructor
  · simpa only [V2.cleanupOldData] using
      sweepConvs_mem_iff now s.store s.timers s.pool ph c
  · intro hmem hexp
    simpa only [V2.cleanupOldData] using
      sweepConvs_deleted_key_not_mem now s.store s.timers s.pool ph c hmem hexp

/-- C7 witness: sweeping `exSweepSys` at a time just past the stale
conversation's horizon deletes the stale conversation and its timer key and
keeps the recent conversation untouched. -/
theorem c7_witness :
    (("5511999999999", exConvActivated) ∈
        (V2.cleanupOldData exSweepSys 259200500).store ↔
      (("5511999999999", exConvActivated) ∈ exSweepSys.store ∧
        259200500 - exConvActivated.last_activity ≤ V2.DATA_RETENTION_TIME))
    ∧ (("5511888888888", exConvStale) ∈ exSweepSys.store ∧
        V2.DATA_RETENTION_TIME < 259200500 - exConvStale.last_activity)
    ∧ V2.timeoutKey "5511888888888" exConvStale.current_checkpoint ∉
        (V2.cleanupOldData exSweepSys 259200500).timers :=
  ⟨(c7_retention_sweep exSweepSys 259200500 "5511999999999"
      exConvActivated).1,
   ⟨by decide, by decide⟩,
   (c7_retention_sweep exSweepSys 259200500 "5511888888888" exConvStale).2
     (by decide) (by decide)⟩


/-- C10: an inbound non-echo, non-blank message from a client with no
existing conversation makes the Evolution webhook handler (part_001
lines 494-517) create a conversation for that client, assigned to the
instance chosen by `getNextInstance`, and emit a `new_lead`
notification. -/
theorem c10_auto_lead_creation (s : V2.Sys) (now : Millis)
    (phone content : String)
    (htrim : V2.trimStr content ≠ "")
    (habs : lookupA phone s.store = none) :
    lookupA phone (V2.handleEvolutionMessage s now phone false content).store
      = some
        { phone := phone, name := "Cliente",
          instanceName := (V2.getNextInstance s.cfg s.pool s.counter now).1.name,
          instance_id := (V2.getNextInstance s.cfg s.pool s.counter now).1.id,
          source := "whatsapp_direto", current_checkpoint := none,
          checkpoints := [], waiting_response := false, created_at := now,
          last_activity := now, status := "active",
          checkpoint_activated_at := 0 }
    ∧ (V2.handleEvolutionMessage s now phone false content).notes
      = s.notes ++
        [{ event := "new_lead", phone := phone, checkpoint := none,
           instanceName :=
             (V2.getNextInstance s.cfg s.pool s.counter now).1.name }] := by
  constructor
  · simp only [V2.handleEvolutionMessage, if_neg htrim, habs, Option.isNone_none,
      if_true, if_false, Bool.false_eq_true, V2.createConversation]
    exact lookupA_setA_self _ _ _
  · simp [V2.handleEvolutionMessage, htrim, habs, V2.createConversation]

/-- C10 witness: the first message from an unknown client at time 500
creates its conversation on instance G08. -/
theorem c10_witness :
    (V2.trimStr " oi " ≠ "")
    ∧ (lookupA "5511999999999" exInit.store = none)
    ∧ lookupA "5511999999999"
        (V2.handleEvolutionMessage exInit 500 "5511999999999" false
          " oi ").store
      = some
        { phone := "5511999999999", name := "Cliente",
          instanceName :=
            (V2.getNextInstance exInit.cfg exInit.pool exInit.counter 500).1.name,
          instance_id :=
            (V2.getNextInstance exInit.cfg exInit.pool exInit.counter 500).1.id,
          source := "whatsapp_direto", current_checkpoint := none,
          checkpoints := [], waiting_response := false, created_at := 500,
          last_activity := 500, status := "active",
          checkpoint_activated_at := 0 } :=
  ⟨by decide, by decide,
   (c10_auto_lead_creation exInit 500 "5511999999999" " oi "
     (by decide) (by decide)).1⟩


/-- C8: `getBestInstance` (src/index.js lines 111-137) scores each
non-blocked instance as the fixed weighted sum of the load factor (floored
at 0), the response rate, the health score and the flat 5-minute recency
bonus, with weights 0.4 / 0.3 / 0.2 / 0.1, and returns the first instance
attaining the maximal score over the pool in iteration order (earlier
entries win ties). -/
theorem c8_selection_score
    (pool : List (String × V1.Stats)) (instances : List String)
    (counter : Nat) (now : Millis)
    (hpos : ∀ p ∈ pool, 0 ≤ (p : String × V1.Stats).2.response_rate ∧
      0 ≤ p.2.health_score)
    (hex : ∃ p ∈ pool, (p : String × V1.Stats).2.blocked = false) :
    (∀ t : V1.Stats, V1.score now t
      = max 0 (100 - (t.active_conversations : ℚ) * 2) * (4/10)
        + t.response_rate * (3/10) + t.health_score * (2/10)
        + (if now - t.last_activity < 300000 then (10 : ℚ) else 0) * (1/10))
    ∧ ∃ pre n s suf,
        pool = pre ++ (n, s) :: suf
        ∧ s.blocked = false
        ∧ V1.getBestInstance pool instances counter now = (n, counter)
        ∧ (∀ p ∈ pool, (p : String × V1.Stats).2.blocked = false →
            V1.score now p.2 ≤ V1.score now s)
        ∧ (∀ p ∈ pre, (p : String × V1.Stats).2.blocked = false →
            V1.score now p.2 < V1.score now s) := by
  obtain ⟨p₀, hp₀mem, hp₀nb⟩ := hex
  have h0 : (0 : ℚ) ≤ V1.score now p₀.2 :=
    score_nonneg now p₀.2 (hpos p₀ hp₀mem).1 (hpos p₀ hp₀mem).2
  have hub := bestLoop_ub now pool none (-1) p₀ hp₀mem hp₀nb
  have hlt : (-1 : ℚ) < (V1.bestLoop now pool (none, -1)).2 := by linarith
  obtain ⟨pre, n, s, suf, hsplit, hnb, h1, h2, hpre⟩ :=
    bestLoop_hit now pool none (-1) hlt
  refine ⟨fun t => rfl, pre, n, s, suf, hsplit, hnb, ?_, ?_, ?_⟩
  · unfold V1.getBestInstance
    have hpair : V1.bestLoop now pool (none, -1) = (some n, V1.score now s) :=
      Prod.ext h1 h2
    rw [hpair]
  · intro p hp hnb'
    have := bestLoop_ub now pool none (-1) p hp hnb'
    rw [h2] at this
    exact this
  · intro p hp hnb'
    exact hpre p hp hnb'

/-- C8 witness: on a healthy two-instance pool with identical scores the
first instance in iteration order is selected. -/
theorem c8_witness :
    (∀ p ∈ exPoolHealthy, 0 ≤ (p : String × V1.Stats).2.response_rate ∧
      0 ≤ p.2.health_score)
    ∧ (∃ p ∈ exPoolHealthy, (p : String × V1.Stats).2.blocked = false)
    ∧ ((∀ t : V1.Stats, V1.score 500 t
        = max 0 (100 - (t.active_conversations : ℚ) * 2) * (4/10)
          + t.response_rate * (3/10) + t.health_score * (2/10)
          + (if 500 - t.last_activity < 300000 then (10 : ℚ) else 0) * (1/10))
      ∧ ∃ pre n s suf,
          exPoolHealthy = pre ++ (n, s) :: suf
          ∧ s.blocked = false
          ∧ V1.getBestInstance exPoolHealthy V1.INSTANCE_NAMES 0 500
            = (n, 0)
          ∧ (∀ p ∈ exPoolHealthy, (p : String × V1.Stats).2.blocked = false →
              V1.score 500 p.2 ≤ V1.score 500 s)
          ∧ (∀ p ∈ pre, (p : String × V1.Stats).2.blocked = false →
              V1.score 500 p.2 < V1.score 500 s)) :=
  ⟨by decide, by decide,
   c8_selection_score exPoolHealthy V1.INSTANCE_NAMES 0 500
     (by decide) (by decide)⟩

/-- C9: instance selection never returns a blocked instance while a
non-blocked one exists, in both variants; and when every instance is
blocked, `getBestInstance` falls back to pure round-robin over the full
configured list, whose successive picks visit every configured index
exactly once per cycle of `instances.length` calls. -/
theorem c9_blocked_fallback
    (pool : List (String × V1.Stats)) (instances : List String)
    (counter : Nat) (now : Millis) :
    ((∀ p ∈ pool, 0 ≤ (p : String × V1.Stats).2.response_rate ∧
        0 ≤ p.2.health_score) →
      (∃ p ∈ pool, (p : String × V1.Stats).2.blocked = false) →
      ∃ n s, (n, s) ∈ pool ∧ s.blocked = false
        ∧ V1.getBestInstance pool instances counter now = (n, counter))
    ∧ ((∀ p ∈ pool, (p : String × V1.Stats).2.blocked = true) →
        (∀ i : Nat, V1.getBestInstance pool instances (counter + i) now
          = (instances.getD ((counter + i) % instances.length) "",
             counter + i + 1))
        ∧ (0 < instances.length → ∀ j < instances.length,
            ∃! i, i < instances.length ∧
              (counter + i) % instances.length = j))
    ∧ (∀ (cfg : List V2.InstanceCfg) (pool₂ : List (String × V2.Stats))
        (counter₂ : Nat) (now₂ : Millis),
        (cfg.filter (fun i => i.active && !(V2.blockedOf pool₂ i.name))).isEmpty
          = false →
        (V2.getNextInstance cfg pool₂ counter₂ now₂).1 ∈ cfg
        ∧ (V2.getNextInstance cfg pool₂ counter₂ now₂).1.active = true
        ∧ V2.blockedOf pool₂
            (V2.getNextInstance cfg pool₂ counter₂ now₂).1.name = false) := by
  refine ⟨?_, ?_, ?_⟩
  · intro hpos hex
    obtain ⟨p₀, hp₀mem, hp₀nb⟩ := hex
    have h0 : (0 : ℚ) ≤ V1.score now p₀.2 :=
      score_nonneg now p₀.2 (hpos p₀ hp₀mem).1 (hpos p₀ hp₀mem).2
    have hub := bestLoop_ub now pool none (-1) p₀ hp₀mem hp₀nb
    have hlt : (-1 : ℚ) < (V1.bestLoop now pool (none, -1)).2 := by linarith
    obtain ⟨pre, n, s, suf, hsplit, hnb, h1, h2, _⟩ :=
      bestLoop_hit now pool none (-1) hlt
    refine ⟨n, s, ?_, hnb, ?_⟩
    · rw [hsplit]
      exact List.mem_append.2 (Or.inr (List.mem_cons_self _ _))
    · unfold V1.getBestInstance
      have hpair : V1.bestLoop now pool (none, -1)
          = (some n, V1.score now s) := Prod.ext h1 h2
      rw [hpair]
  · intro hall
    constructor
    · intro i
      unfold V1.getBestInstance
      rw [bestLoop_all_blocked now pool none (-1) hall]
    · intro hlen j hj
      exact mod_cycle_exists_unique instances.length counter j hlen hj
  · intro cfg pool₂ counter₂ now₂ hne
    have hlen : 0 <
        (cfg.filter (fun i => i.active && !(V2.blockedOf pool₂ i.name))).length := by
      rcases hcase : cfg.filter (fun i => i.active && !(V2.blockedOf pool₂ i.name)) with _ | ⟨a, l⟩
      · rw [hcase] at hne
        simp at hne
      · rw [hcase]
        simp
    have hidx : counter₂ %
        (cfg.filter (fun i => i.active && !(V2.blockedOf pool₂ i.name))).length <
        (cfg.filter (fun i => i.active && !(V2.blockedOf pool₂ i.name))).length :=
      Nat.mod_lt _ hlen
    have hsel : (V2.getNextInstance cfg pool₂ counter₂ now₂).1
        = (cfg.filter (fun i => i.active && !(V2.blockedOf pool₂ i.name))).get
          ⟨counter₂ %
            (cfg.filter (fun i => i.active && !(V2.blockedOf pool₂ i.name))).length,
           hidx⟩ := by
      simp only [V2.getNextInstance, hne, Bool.false_eq_true, if_false]
      exact List.getD_eq_get _ _ hidx
    have hmem : (V2.getNextInstance cfg pool₂ counter₂ now₂).1 ∈
        cfg.filter (fun i => i.active && !(V2.blockedOf pool₂ i.name)) := by
      rw [hsel]
      exact List.get_mem _ _ _
    have hfilter := List.mem_filter.1 hmem
    have hprop := hfilter.2
    simp only [Bool.and_eq_true, Bool.not_eq_true'] at hprop
    exact ⟨hfilter.1, hprop.1, hprop.2⟩

/-- C9 witness: the V1 selection over a pool with G01 blocked picks G02;
with all blocked, the fallback from counter 3 is pure round-robin over the
ten configured names; and part_001's selection over its configured list is
active and unblocked. -/
theorem c9_witness :
    (∃ n s, (n, s) ∈ exPoolOneBlocked ∧ s.blocked = false
      ∧ V1.getBestInstance exPoolOneBlocked V1.INSTANCE_NAMES 7 500
        = (n, 7))
    ∧ (∀ i : Nat, V1.getBestInstance exPoolAllBlocked V1.INSTANCE_NAMES
        (3 + i) 500
      = (V1.INSTANCE_NAMES.getD ((3 + i) % V1.INSTANCE_NAMES.length) "",
         3 + i + 1))
    ∧ (0 < V1.INSTANCE_NAMES.length → ∀ j < V1.INSTANCE_NAMES.length,
        ∃! i, i < V1.INSTANCE_NAMES.length ∧
          (3 + i) % V1.INSTANCE_NAMES.length = j)
    ∧ ((V2.getNextInstance V2.INSTANCES exInit.pool 0 500).1 ∈ V2.INSTANCES
      ∧ (V2.getNextInstance V2.INSTANCES exInit.pool 0 500).1.active = true
      ∧ V2.blockedOf exInit.pool
          (V2.getNextInstance V2.INSTANCES exInit.pool 0 500).1.name
        = false) :=
  ⟨(c9_blocked_fallback exPoolOneBlocked V1.INSTANCE_NAMES 7 500).1
     (by decide) (by decide),
   ((c9_blocked_fallback exPoolAllBlocked V1.INSTANCE_NAMES 3 500).2.1
     (by decide)).1,
   ((c9_blocked_fallback exPoolAllBlocked V1.INSTANCE_NAMES 3 500).2.1
     (by decide)).2,
   (c9_blocked_fallback exPoolAllBlocked V1.INSTANCE_NAMES 0 500).2.2
     V2.INSTANCES exInit.pool 0 500 (by decide)⟩


/-- C5: the waiting-for-response invariant.  Along every trace of
operations on a client — guarded creation, activation, resolution, timeout
firing and sweeper passes (part_001 lines 171-331, 601-650) — the
conversation's waiting flag is true exactly when the current checkpoint is
non-null and the ghost flag `sinceActivation` (no resolving response or
timeout since that checkpoint's activation, worded from the spec) is
set. -/
theorem c5_waiting_invariant (p : String) (cfg : List V2.InstanceCfg)
    (now0 : Millis) (ops : List V2.Op) :
    ∀ c : V2.Conv,
      (p, c) ∈ (V2.runG p (V2.initSys cfg now0, false) ops).1.store →
      c.waiting_response
        = (c.current_checkpoint.isSome
            && (V2.runG p (V2.initSys cfg now0, false) ops).2) := by
  have main : ∀ (ops : List V2.Op) (sg : V2.Sys × Bool),
      (∀ c : V2.Conv, (p, c) ∈ sg.1.store →
        c.waiting_response = (c.current_checkpoint.isSome && sg.2)) →
      ∀ c : V2.Conv, (p, c) ∈ (V2.runG p sg ops).1.store →
        c.waiting_response
          = (c.current_checkpoint.isSome && (V2.runG p sg ops).2) := by
    intro ops
    induction ops with
    | nil =>
        intro sg h
        simpa [V2.runG] using h
    | cons op rest ih =>
        intro sg h
        have hstep := step_preserves_waiting_inv p sg op h
        simp only [V2.runG, List.foldl_cons]
        simpa [V2.runG] using
          ih (V2.step p sg.1 op, V2.sinceActivation p sg.1 op sg.2) hstep
  exact main ops (V2.initSys cfg now0, false)
    (by intro c hc; simp [V2.initSys] at hc)

/-- C5 witness: after create-then-activate the conversation is waiting, the
checkpoint is set and the ghost flag is on; the invariant instantiates to
`true = true && true`. -/
theorem c5_witness :
    (("5511999999999", exConvActivated) ∈
      (V2.runG "5511999999999" (V2.initSys V2.INSTANCES 400, false)
        [V2.Op.create 500 "Cliente" "ads",
         V2.Op.activate 1000 "confirm_interest"]).1.store)
    ∧ exConvActivated.waiting_response
      = (exConvActivated.current_checkpoint.isSome
          && (V2.runG "5511999999999" (V2.initSys V2.INSTANCES 400, false)
            [V2.Op.create 500 "Cliente" "ads",
             V2.Op.activate 1000 "confirm_interest"]).2) :=
  ⟨by decide,
   c5_waiting_invariant "5511999999999" V2.INSTANCES 400
     [V2.Op.create 500 "Cliente" "ads",
      V2.Op.activate 1000 "confirm_interest"]
     exConvActivated (by decide)⟩

/-- C6 counterexample: the claim says the pending-timeout association is
removed when the timer fires.  In part_001 `handleCheckpointTimeout` never
deletes its `checkpointTimeouts` entry: after the timeout fires on the
waiting checkpoint, the key is still in the map. -/
theorem c6_counterexample :
    exActivated.timers
      = [V2.timeoutKey "5511999999999" (some "confirm_interest")]
    ∧ (V2.handleCheckpointTimeout exActivated 3000 "5511999999999"
        "confirm_interest").timers
      = [V2.timeoutKey "5511999999999" (some "confirm_interest")] := by
  decide

/-- C6 amended: along every trace of client operations, at most one timer
key exists for the client at any time (re-activation supersedes, never
stacks), every existing key is keyed by the conversation's current
checkpoint, and a successful resolve removes the pending key (leaving no
timer).  The key is, however, not removed when the timeout fires
(see the counterexample): it persists until re-activation or conversation
deletion. -/
theorem c6_at_most_one_timer (p : String) (cfg : List V2.InstanceCfg)
    (now0 : Millis) (ops : List V2.Op) :
    (V2.run p (V2.initSys cfg now0) ops).timers.length ≤ 1
    ∧ (∀ k ∈ (V2.run p (V2.initSys cfg now0) ops).timers,
        ∃ c : V2.Conv, (p, c) ∈ (V2.run p (V2.initSys cfg now0) ops).store
          ∧ k = V2.timeoutKey p c.current_checkpoint)
    ∧ (∀ (now : Millis) (msg : String) (c : V2.Conv),
        lookupA p (V2.run p (V2.initSys cfg now0) ops).store = some c →
        c.waiting_response = true →
        (V2.processCheckpointResponse (V2.run p (V2.initSys cfg now0) ops)
          now p msg).2.timers = []) := by
  obtain ⟨huniq, hlen, hkey⟩ := run_timerInv p cfg now0 ops
  refine ⟨hlen, hkey, ?_⟩
  intro now msg c hc hw
  have hcmem := lookupA_mem hc
  have hall : ∀ x ∈ (V2.run p (V2.initSys cfg now0) ops).timers,
      x = V2.timeoutKey p c.current_checkpoint := by
    intro x hx
    obtain ⟨c', hc'mem, hkeq⟩ := hkey x hx
    rw [hkeq, huniq c' c hc'mem hcmem]
  have hrk := removeKey_eq_nil hall
  simp only [V2.processCheckpointResponse, hc, hw, Bool.not_true,
    Bool.false_eq_true, if_false]
  exact hrk

/-- C6 witness: after create-then-activate, resolving the waiting
checkpoint leaves the timer map empty. -/
theorem c6_witness :
    (lookupA "5511999999999"
        (V2.run "5511999999999" (V2.initSys V2.INSTANCES 400)
          [V2.Op.create 500 "Cliente" "ads",
           V2.Op.activate 1000 "confirm_interest"]).store
      = some exConvActivated)
    ∧ exConvActivated.waiting_response = true
    ∧ (V2.processCheckpointResponse
        (V2.run "5511999999999" (V2.initSys V2.INSTANCES 400)
          [V2.Op.create 500 "Cliente" "ads",
           V2.Op.activate 1000 "confirm_interest"])
        2000 "5511999999999" "yes").2.timers = [] :=
  ⟨by decide, by decide,
   (c6_at_most_one_timer "5511999999999" V2.INSTANCES 400
     [V2.Op.create 500 "Cliente" "ads",
      V2.Op.activate 1000 "confirm_interest"]).2.2 2000 "yes"
     exConvActivated (by decide) (by decide)⟩

end Whatsaut
